import Mathlib

/-!
Verification development for the Real-Estate-Monitor repository's listing
ingestion core: duplicate detection (`app/utils/duplicate_detector.py`),
property hashing (`app/core/database.py`), filtering
(`utils/listing_filter.py`), deal scoring (`app/core/deal_score.py`) and the
listing processor (`app/core/listing_processor.py`).

Modelling conventions:
* Python floats are modelled as `ℚ` (all comparisons in the code are exact
  decimal comparisons, no claim depends on binary rounding).
* Python `None` is `Option.none`; a raw-listing dictionary field that is
  missing or bound to `None` is modelled as `none` (the code reads every raw
  field through `dict.get`, which returns `None` for a missing key).
* Python truthiness: `None`, `0`, `""` and `[]` are falsy.
* Exceptions are modelled with `Except String`; functions that mutate the
  session state return the (possibly partially mutated) state next to the
  outcome, mirroring the fact that in-place ORM mutations survive an
  exception raised later in the same function.
* Timestamps are abstract day counters (`Nat`); `datetime.utcnow()` becomes
  an explicit `now` parameter (one per processor call).
* `str.lower` is modelled on ASCII letters (the only case-carrying letters in
  the corpus); `str.isdigit`/`str.strip` use the ASCII whitespace/digit sets.
-/

/-- ASCII lower-casing of one character, the fragment of Python `str.lower`
exercised by the code. -/
def pyLowerChar (c : Char) : Char :=
  match c with
  | 'A' => 'a' | 'B' => 'b' | 'C' => 'c' | 'D' => 'd' | 'E' => 'e'
  | 'F' => 'f' | 'G' => 'g' | 'H' => 'h' | 'I' => 'i' | 'J' => 'j'
  | 'K' => 'k' | 'L' => 'l' | 'M' => 'm' | 'N' => 'n' | 'O' => 'o'
  | 'P' => 'p' | 'Q' => 'q' | 'R' => 'r' | 'S' => 's' | 'T' => 't'
  | 'U' => 'u' | 'V' => 'v' | 'W' => 'w' | 'X' => 'x' | 'Y' => 'y'
  | 'Z' => 'z' | c => c

/-- Python `str.lower` (ASCII fragment). -/
def pyLower (s : String) : String := String.mk (s.data.map pyLowerChar)

/-- The characters Python `str.strip()` removes: space, tab, newline,
carriage return, vertical tab, form feed. -/
def pyIsWS (c : Char) : Bool :=
  c == ' ' || c == '\t' || c == '\n' || c == '\r' ||
  c == Char.ofNat 11 || c == Char.ofNat 12

/-- Python `str.strip()` on a character list: drop whitespace from both ends. -/
def pyStripChars (l : List Char) : List Char :=
  ((l.dropWhile pyIsWS).reverse.dropWhile pyIsWS).reverse

/-- Python `str.strip()`. -/
def pyStrip (s : String) : String := String.mk (pyStripChars s.data)

/-- Python `str.replace(' ', '')` on a character list. -/
def dropSpaces (l : List Char) : List Char := l.filter (fun c => !(c == ' '))

/-- Python `str.replace(' ', '')`. -/
def pyDropSpaces (s : String) : String := String.mk (dropSpaces s.data)

/-- Helper for stating "two strings differ only in whitespace": both become
equal once every whitespace character is deleted. -/
def eraseAllWS (s : String) : String :=
  String.mk (s.data.filter (fun c => !pyIsWS c))

/-! ## SHA-256 (`hashlib.sha256(...).hexdigest()`) -/

/-- Truncate to 32 bits. -/
def wrap32 (x : Nat) : Nat := x % 4294967296

/-- 32-bit rotate right. -/
def rotr32 (n x : Nat) : Nat := wrap32 ((x >>> n) ||| (x <<< (32 - n)))

/-- Bitwise complement on 32 bits. -/
def not32 (x : Nat) : Nat := x ^^^ 4294967295

def shaCh (x y z : Nat) : Nat := (x &&& y) ^^^ (not32 x &&& z)

def shaMaj (x y z : Nat) : Nat := (x &&& y) ^^^ (x &&& z) ^^^ (y &&& z)

def bigSigma0 (x : Nat) : Nat := rotr32 2 x ^^^ rotr32 13 x ^^^ rotr32 22 x

def bigSigma1 (x : Nat) : Nat := rotr32 6 x ^^^ rotr32 11 x ^^^ rotr32 25 x

def smallSigma0 (x : Nat) : Nat := rotr32 7 x ^^^ rotr32 18 x ^^^ (x >>> 3)

def smallSigma1 (x : Nat) : Nat := rotr32 17 x ^^^ rotr32 19 x ^^^ (x >>> 10)

/-- The 64 SHA-256 round constants (FIPS 180-4 section 4.2.2), written in
decimal. -/
def shaK : List Nat :=
  [1116352408, 1899447441, 3049323471, 3921009573, 961987163,
   1508970993, 2453635748, 2870763221, 3624381080, 310598401,
   607225278, 1426881987, 1925078388, 2162078206, 2614888103,
   3248222580, 3835390401, 4022224774, 264347078, 604807628,
   770255983, 1249150122, 1555081692, 1996064986, 2554220882,
   2821834349, 2952996808, 3210313671, 3336571891, 3584528711,
   113926993, 338241895, 666307205, 773529912, 1294757372,
   1396182291, 1695183700, 1986661051, 2177026350, 2456956037,
   2730485921, 2820302411, 3259730800, 3345764771, 3516065817,
   3600352804, 4094571909, 275423344, 430227734, 506948616,
   659060556, 883997877, 958139571, 1322822218, 1537002063,
   1747873779, 1955562222, 2024104815, 2227730452, 2361852424,
   2428436474, 2756734187, 3204031479, 3329325298]

/-- The initial SHA-256 hash state (FIPS 180-4 section 5.3.3), in decimal. -/
def shaH0 : List Nat :=
  [1779033703, 3144134277, 1013904242, 2773480762, 1359893119,
   2600822924, 528734635, 1541459225]

/-- Big-endian 8-byte encoding of a length in bits. -/
def bytesBE8 (n : Nat) : List Nat :=
  [(n >>> 56) % 256, (n >>> 48) % 256, (n >>> 40) % 256, (n >>> 32) % 256,
   (n >>> 24) % 256, (n >>> 16) % 256, (n >>> 8) % 256, n % 256]

/-- SHA-256 message padding. -/
def shaPad (msg : List Nat) : List Nat :=
  let len := msg.length
  let zeros := (119 - len % 64) % 64
  msg ++ [0x80] ++ List.replicate zeros 0 ++ bytesBE8 (8 * len)

/-- Group bytes into big-endian 32-bit words. -/
def toWords : List Nat → List Nat
  | b0 :: b1 :: b2 :: b3 :: rest =>
      (b0 * 16777216 + b1 * 65536 + b2 * 256 + b3) :: toWords rest
  | _ => []

/-- One step of the message-schedule extension. -/
def scheduleStep (w : List Nat) : List Nat :=
  let n := w.length
  w ++ [wrap32 (smallSigma1 (w.getD (n - 2) 0) + w.getD (n - 7) 0 +
                smallSigma0 (w.getD (n - 15) 0) + w.getD (n - 16) 0)]

/-- Extend a 16-word block to the 64-word message schedule. -/
def shaSchedule (block : List Nat) : List Nat :=
  (List.range 48).foldl (fun w _ => scheduleStep w) block

/-- One SHA-256 round. -/
def shaRound (st : Nat × Nat × Nat × Nat × Nat × Nat × Nat × Nat)
    (k w : Nat) : Nat × Nat × Nat × Nat × Nat × Nat × Nat × Nat :=
  let (a, b, c, d, e, f, g, h) := st
  let t1 := wrap32 (h + bigSigma1 e + shaCh e f g + k + w)
  let t2 := wrap32 (bigSigma0 a + shaMaj a b c)
  (wrap32 (t1 + t2), a, b, c, wrap32 (d + t1), e, f, g)

/-- Compress one 16-word block into the running hash state. -/
def shaCompress (h : List Nat) (block : List Nat) : List Nat :=
  let w := shaSchedule block
  let init : Nat × Nat × Nat × Nat × Nat × Nat × Nat × Nat :=
    (h.getD 0 0, h.getD 1 0, h.getD 2 0, h.getD 3 0,
     h.getD 4 0, h.getD 5 0, h.getD 6 0, h.getD 7 0)
  let (a, b, c, d, e, f, g, hh) :=
    (shaK.zip w).foldl (fun st kw => shaRound st kw.1 kw.2) init
  [wrap32 (h.getD 0 0 + a), wrap32 (h.getD 1 0 + b),
   wrap32 (h.getD 2 0 + c), wrap32 (h.getD 3 0 + d),
   wrap32 (h.getD 4 0 + e), wrap32 (h.getD 5 0 + f),
   wrap32 (h.getD 6 0 + g), wrap32 (h.getD 7 0 + hh)]

/-- Fold the compression function over `n` 16-word blocks (structural
recursion on the block count so that the kernel can evaluate it). -/
def shaBlocksFuel : Nat → List Nat → List Nat → List Nat
  | 0, h, _ => h
  | n + 1, h, ws => shaBlocksFuel n (shaCompress h (ws.take 16)) (ws.drop 16)

/-- Fold the compression function over all 16-word blocks; the padded message
always has a multiple of 16 words. -/
def shaBlocks (h : List Nat) (ws : List Nat) : List Nat :=
  shaBlocksFuel (ws.length / 16) h ws

/-- One lower-case hex digit. -/
def hexDigit (n : Nat) : Char :=
  if n < 10 then Char.ofNat (48 + n) else Char.ofNat (87 + n)

/-- Lower-case 8-hex-digit rendering of a 32-bit word. -/
def hex8 (n : Nat) : String :=
  String.mk ([7, 6, 5, 4, 3, 2, 1, 0].map fun i => hexDigit ((n >>> (4 * i)) % 16))

/-- UTF-8 encoding of one character (Python `str.encode()`). -/
def utf8Char (c : Char) : List Nat :=
  let n := c.toNat
  if n < 128 then [n]
  else if n < 2048 then [192 + n / 64, 128 + n % 64]
  else if n < 65536 then [224 + n / 4096, 128 + (n / 64) % 64, 128 + n % 64]
  else [240 + n / 262144, 128 + (n / 4096) % 64, 128 + (n / 64) % 64, 128 + n % 64]

/-- UTF-8 encoding of a string as a byte list. -/
def utf8Bytes (s : String) : List Nat := s.data.flatMap utf8Char

/-- `hashlib.sha256(x.encode()).hexdigest()`. -/
def sha256hex (s : String) : String :=
  String.join ((shaBlocks shaH0 (toWords (shaPad (utf8Bytes s)))).map hex8)

/-- Sanity check of the SHA-256 embedding against the published test vector
for "abc". -/
example :
    sha256hex "abc" =
      "ba7816bf8f01cfea414140de5dae2223b00361a396177a9cb410ff61f20015ad" := by
  decide

/-! ## `Listing.generate_property_hash` (`app/core/database.py` lines 74-80) -/

/-- Rendering of a numeric field inside the Python f-string
`f"{normalized_address}_{rooms}_{size_sqm}"`.  The exact digit format is
irrelevant to every claim (both sides of each hash comparison use the same
rooms/size); what matters is that the rendering is a function of the value and
injective, which this canonical-fraction rendering is. -/
def pyNumRepr (q : ℚ) : String :=
  if q.den = 1 then toString q.num else toString q.num ++ "/" ++ toString q.den

/-- The address normalization inside `generate_property_hash`:
`address.lower().strip().replace(' ', '')`. -/
def normalizeAddress (address : String) : String :=
  pyDropSpaces (pyStrip (pyLower address))

/-- `Listing.generate_property_hash(address, rooms, size_sqm)`: SHA-256 hex
digest of `normalized_address + "_" + rooms + "_" + size_sqm`. -/
def generate_property_hash (address : String) (rooms size_sqm : ℚ) : String :=
  sha256hex (normalizeAddress address ++ "_" ++ pyNumRepr rooms ++ "_" ++
             pyNumRepr size_sqm)

/-! ## `normalize_israeli_phone` (`app/utils/phone_normalizer.py`) -/

/-- `normalize_israeli_phone(phone)`. -/
def normalize_israeli_phone (phone : Option String) : Option String :=
  match phone with
  | none => none
  | some p =>
    if p = "" then none
    else
      let digits := p.data.filter Char.isDigit
      if digits = [] then none
      else
        let digits :=
          if digits.take 3 = ['9', '7', '2'] then '0' :: digits.drop 3
          else digits
        let digits :=
          if digits.length > 10 && digits.headD ' ' == '0' then digits.take 10
          else digits
        if digits.length = 9 ∨ digits.length = 10 then some (String.mk digits)
        else none

/-! ## Data model (`app/core/database.py`) -/

/-- A raw scraped listing dictionary (spec section 6).  Every field is read by
the core through `dict.get`, so a missing key and an explicit `None` coincide
as `none`. -/
structure RawListing where
  source : Option String := none
  external_id : Option String := none
  url : Option String := none
  title : Option String := none
  description : Option String := none
  address : Option String := none
  city : Option String := none
  neighborhood : Option String := none
  street : Option String := none
  rooms : Option ℚ := none
  size_sqm : Option ℚ := none
  floor : Option Int := none
  total_floors : Option Int := none
  has_elevator : Option Bool := none
  has_parking : Option Bool := none
  has_balcony : Option Bool := none
  has_mamad : Option Bool := none
  price : Option ℚ := none
  price_per_sqm : Option ℚ := none
  contact_name : Option String := none
  contact_phone : Option String := none
  images : Option (List String) := none
  deriving Repr, DecidableEq

/-- A stored `listings` row.  `address` is modelled as `String` (`""` for SQL
NULL): no code path in the core distinguishes a NULL address from an empty
one, and `find_by_phone_fuzzy` calls `.lower()` on it unconditionally.
`images_json` is modelled as the decoded list of URLs (JSON round-tripping is
pure representation). -/
structure Listing where
  id : Nat
  property_hash : String
  source : Option String := none
  external_id : Option String := none
  url : Option String := none
  title : Option String := none
  description : Option String := none
  address : String := ""
  city : Option String := none
  neighborhood : Option String := none
  street : Option String := none
  rooms : Option ℚ := none
  size_sqm : Option ℚ := none
  floor : Option Int := none
  total_floors : Option Int := none
  has_elevator : Bool := false
  has_parking : Bool := false
  has_balcony : Bool := false
  has_mamad : Bool := false
  price : Option ℚ := none
  price_per_sqm : Option ℚ := none
  contact_name : Option String := none
  contact_phone : Option String := none
  first_seen : Option Nat := none
  last_seen : Nat := 0
  last_checked : Nat := 0
  status : String := "unseen"
  user_note : Option String := none
  deal_score : ℚ := 0
  images : List String := []
  deriving Repr, DecidableEq

/-- A `price_history` row. -/
structure PriceHistory where
  listing_id : Nat
  price : ℚ
  price_per_sqm : Option ℚ := none
  timestamp : Nat
  deriving Repr, DecidableEq

/-- A `description_history` row. -/
structure DescriptionHistory where
  listing_id : Nat
  description : String
  timestamp : Nat
  deriving Repr, DecidableEq

/-- A `neighborhood_stats` row (fields read by the deal scorer). -/
structure NeighborhoodStats where
  city : Option String := none
  neighborhood : Option String := none
  avg_price : Option ℚ := none
  avg_price_per_sqm : Option ℚ := none
  median_price : Option ℚ := none
  median_price_per_sqm : Option ℚ := none
  sample_size : Option Nat := none
  deriving Repr, DecidableEq

/-- The database session state visible to the listing processor.  Lists keep
insertion order (`query(...).first()` scans in that order); `nextId` models
the autoincrement primary key assigned at `flush()`. -/
structure DBState where
  listings : List Listing := []
  priceHistory : List PriceHistory := []
  descHistory : List DescriptionHistory := []
  stats : List NeighborhoodStats := []
  nextId : Nat := 1
  deriving Repr, DecidableEq

/-- The configuration fields the core reads (`app/core/config.py`; the four
`deal_score_weight_*` attributes are read from the settings object by
`deal_score.py`, and `cities` is the already-split `get_cities_list()`
output). -/
structure Settings where
  max_price : ℚ := 3000000
  min_rooms : ℚ := 5/2
  min_size_sqm : ℚ := 65
  cities : List String := []
  exclude_ground_floor : Bool := true
  require_elevator_above_floor : Int := 2
  require_parking : Bool := false
  require_mamad : Bool := false
  prefer_balcony : Bool := true
  prefer_parking : Bool := true
  prefer_elevator : Bool := true
  prefer_top_floors : Bool := true
  prefer_mamad : Bool := true
  min_price_drop_percent_notify : ℚ := 3
  deal_score_weight_price : ℚ := 40
  deal_score_weight_features : ℚ := 30
  deal_score_weight_recency : ℚ := 15
  deal_score_weight_price_trend : ℚ := 15
  deriving Repr, DecidableEq

/-! ## Python truthiness helpers -/

/-- Truthiness of an optional string (`None` and `""` are falsy). -/
def truthyS : Option String → Bool
  | none => false
  | some s => s ≠ ""

/-- Truthiness of an optional number (`None` and `0` are falsy). -/
def truthyQ : Option ℚ → Bool
  | none => false
  | some q => q ≠ 0

/-- Truthiness of an optional integer. -/
def truthyI : Option Int → Bool
  | none => false
  | some n => n ≠ 0

/-- Truthiness of an optional list (`None` and `[]` are falsy). -/
def truthyL : Option (List String) → Bool
  | none => false
  | some l => l ≠ []

/-! ## `ListingFilter` (`utils/listing_filter.py`) -/

/-- `ListingFilter._passes_price_filter`: a missing/zero price passes,
otherwise the price must not exceed the configured maximum. -/
def passes_price_filter (s : Settings) (raw : RawListing) : Bool :=
  if ¬truthyQ raw.price then true else decide (raw.price.getD 0 ≤ s.max_price)

/-- `ListingFilter._passes_rooms_filter`. -/
def passes_rooms_filter (s : Settings) (raw : RawListing) : Bool :=
  if ¬truthyQ raw.rooms then true else decide (raw.rooms.getD 0 ≥ s.min_rooms)

/-- `ListingFilter._passes_size_filter`. -/
def passes_size_filter (s : Settings) (raw : RawListing) : Bool :=
  if ¬truthyQ raw.size_sqm then true
  else decide (raw.size_sqm.getD 0 ≥ s.min_size_sqm)

/-- `ListingFilter._passes_deal_breakers`, evaluated in source order:
ground floor, elevator-above-floor, parking, mamad. -/
def passes_deal_breakers (s : Settings) (raw : RawListing) :
    Bool × Option String :=
  if s.exclude_ground_floor && raw.floor == some 0 then
    (false, some "Ground floor excluded by user preference")
  else if s.require_elevator_above_floor ≠ 0 &&
      (match raw.floor with
       | some f => decide (f > s.require_elevator_above_floor) &&
                   !(raw.has_elevator.getD false)
       | none => false) then
    (false, some (s!"Floor {raw.floor.getD 0} requires elevator " ++
                  s!"(threshold: {s.require_elevator_above_floor})"))
  else if s.require_parking && !(raw.has_parking.getD false) then
    (false, some "Parking required but not available")
  else if s.require_mamad && !(raw.has_mamad.getD false) then
    (false, some "Mamad (safe room) required but not available")
  else (true, none)

/-- `ListingFilter._passes_city_filter`: a missing city or an empty allow-list
passes, otherwise the city must be a member of the list. -/
def passes_city_filter (s : Settings) (raw : RawListing) : Bool :=
  if ¬truthyS raw.city then true
  else if s.cities = [] then true
  else decide (raw.city.getD "" ∈ s.cities)

/-- `ListingFilter.passes_all_filters`: short-circuit evaluation in the fixed
order price, rooms, size, deal-breakers, city; the reason of the first
violated rule is reported. -/
def passes_all_filters (s : Settings) (raw : RawListing) : Bool × Option String :=
  if ¬passes_price_filter s raw then
    (false, some (s!"Price {pyNumRepr (raw.price.getD 0)} exceeds maximum " ++
                  pyNumRepr s.max_price))
  else if ¬passes_rooms_filter s raw then
    (false, some (s!"Rooms {pyNumRepr (raw.rooms.getD 0)} below minimum " ++
                  pyNumRepr s.min_rooms))
  else if ¬passes_size_filter s raw then
    (false, some (s!"Size {pyNumRepr (raw.size_sqm.getD 0)} below minimum " ++
                  pyNumRepr s.min_size_sqm))
  else
    match passes_deal_breakers s raw with
    | (false, reason) => (false, reason)
    | (true, _) =>
      if ¬passes_city_filter s raw then
        (false, some s!"City not in allowed list")
      else (true, none)

/-! ## `DealScoreCalculator` (`app/core/deal_score.py`) -/

/-- `DealScoreCalculator._score_price_competitiveness`.  The
`NeighborhoodStats.city == listing.city` SQLAlchemy comparison turns a `None`
value into `IS NULL`, which is exactly `Option` equality. -/
def score_price_competitiveness (s : Settings) (stats : List NeighborhoodStats)
    (l : Listing) : ℚ :=
  match l.price_per_sqm with
  | none => 0
  | some pps =>
    -- `not listing.price_per_sqm or listing.price_per_sqm <= 0`
    if pps ≤ 0 then 0
    else
      let max_score := s.deal_score_weight_price
      match stats.find? (fun st => st.city == l.city &&
                                   st.neighborhood == l.neighborhood) with
      | none => max_score * (1/2)
      | some st =>
        match st.avg_price_per_sqm with
        | none => max_score * (1/2)
        | some avg =>
          -- `not stats.avg_price_per_sqm` also treats 0.0 as missing
          if avg = 0 then max_score * (1/2)
          else
            let ratio := pps / avg
            if ratio ≤ 7/10 then max_score
            else if ratio ≤ 8/10 then max_score * (875/1000)
            else if ratio ≤ 9/10 then max_score * (75/100)
            else if ratio ≤ 1 then max_score * (625/1000)
            else if ratio ≤ 11/10 then max_score * (375/1000)
            else if ratio ≤ 12/10 then max_score * (25/100)
            else max_score * (125/1000)

/-- The weighted preference list built by `_score_features`, in source
order: parking 10, balcony 8, elevator 7, mamad 8, top-half-of-floors 5 (the
latter only when both floor fields are truthy). -/
def featureList (s : Settings) (l : Listing) : List (Bool × ℚ) :=
  (if s.prefer_parking then [(l.has_parking, 10)] else []) ++
  (if s.prefer_balcony then [(l.has_balcony, 8)] else []) ++
  (if s.prefer_elevator then [(l.has_elevator, 7)] else []) ++
  (if s.prefer_mamad then [(l.has_mamad, 8)] else []) ++
  (if s.prefer_top_floors && truthyI l.floor && truthyI l.total_floors then
     [(decide ((l.floor.getD 0 : ℚ) ≥ (l.total_floors.getD 0 : ℚ) / 2), 5)]
   else [])

/-- The proportional-credit sum of `_score_features`: each present feature
earns `weight / total_weight * max_score`; zero total weight scores 0. -/
def scoreFeaturesOf (max_score : ℚ) (features : List (Bool × ℚ)) : ℚ :=
  let total := (features.map Prod.snd).sum
  if total > 0 then
    features.foldl (fun acc f => if f.1 then acc + f.2 / total * max_score
                                 else acc) 0
  else 0

/-- `DealScoreCalculator._score_features`. -/
def score_features (s : Settings) (l : Listing) : ℚ :=
  scoreFeaturesOf s.deal_score_weight_features (featureList s l)

/-- The same computation with the mamad credit line disabled (the mamad
weight still inflates the denominator).  Used to state that a listing without
a mamad receives no mamad credit. -/
def score_features_without_mamad_credit (s : Settings) (l : Listing) : ℚ :=
  scoreFeaturesOf s.deal_score_weight_features
    (featureList s { l with has_mamad := false })

/-- `DealScoreCalculator._score_recency`; `now` and `first_seen` are day
counters, `days_old` their signed difference. -/
def score_recency (s : Settings) (l : Listing) (now : Nat) : ℚ :=
  let max_score := s.deal_score_weight_recency
  match l.first_seen with
  | none => max_score
  | some fs =>
    let days_old : Int := (now : Int) - (fs : Int)
    if days_old = 0 then max_score
    else if days_old ≤ 2 then max_score * (8/10)
    else if days_old ≤ 5 then max_score * (6/10)
    else if days_old ≤ 10 then max_score * (4/10)
    else if days_old ≤ 20 then max_score * (2/10)
    else max_score * (67/1000)

/-- Insert one row into a list sorted by descending timestamp. -/
def insertPHDesc (r : PriceHistory) : List PriceHistory → List PriceHistory
  | [] => [r]
  | x :: xs =>
    if r.timestamp > x.timestamp then r :: x :: xs else x :: insertPHDesc r xs

/-- `sorted(price_history, key=timestamp, reverse=True)`. -/
def sortPHDesc : List PriceHistory → List PriceHistory
  | [] => []
  | x :: xs => insertPHDesc x (sortPHDesc xs)

/-- `DealScoreCalculator._score_price_trend`, reading the listing's
price-history rows. -/
def score_price_trend (s : Settings) (hist : List PriceHistory) : ℚ :=
  let max_score := s.deal_score_weight_price_trend
  let neutral := max_score * (333/1000)
  -- `not listing.price_history or len(listing.price_history) < 2`
  if hist.length < 2 then neutral
  else
    match sortPHDesc hist with
    | r0 :: r1 :: _ =>
      let current := r0.price
      let previous := r1.price
      -- `not current_price or not previous_price or previous_price <= 0`
      if current = 0 ∨ previous ≤ 0 then neutral
      else
        let pct := (current - previous) / previous * 100
        if pct ≤ -10 then max_score
        else if pct ≤ -5 then max_score * (8/10)
        else if pct ≤ -2 then max_score * (6/10)
        else if pct < 0 then max_score * (467/1000)
        else if pct = 0 then neutral
        else max_score * (133/1000)
    | _ => neutral

/-- `DealScoreCalculator.calculate_score`: sum of the four components clamped
to [0, 100].  `stats` are the session's neighborhood statistics and `hist`
the price-history rows visible through `listing.price_history`. -/
def calculate_score (s : Settings) (stats : List NeighborhoodStats)
    (hist : List PriceHistory) (l : Listing) (now : Nat) : ℚ :=
  let score := score_price_competitiveness s stats l + score_features s l +
               score_recency s l now + score_price_trend s hist
  min 100 (max 0 score)

/-- The price-history rows of the listing with primary key `id`. -/
def histFor (st : DBState) (id : Nat) : List PriceHistory :=
  st.priceHistory.filter (fun r => r.listing_id == id)

/-! ## `DuplicateDetector` (`app/utils/duplicate_detector.py`)

The fuzzywuzzy `fuzz.ratio` similarity is third-party library code; it is
modelled as an explicit function parameter `ratio` (0-100 scale), mirroring
the imported `fuzz` module.  `threshold` is the constructor's
`similarity_threshold` (default 85). -/

/-- `DuplicateDetector.find_by_property_hash`: first stored listing with the
given hash. -/
def find_by_property_hash (listings : List Listing) (property_hash : String) :
    Option Listing :=
  listings.find? (fun l => l.property_hash == property_hash)

/-- `DuplicateDetector.find_by_external_id`: first stored listing with the
given source and external id; a falsy external id finds nothing. -/
def find_by_external_id (listings : List Listing) (source : String)
    (external_id : Option String) : Option Listing :=
  if ¬truthyS external_id then none
  else listings.find? (fun l => l.source == some source &&
                                l.external_id == external_id)

/-- `DuplicateDetector.find_by_phone_fuzzy`: first stored listing with the
same normalized phone, accepted only when the case-insensitive address
similarity strictly exceeds the threshold; always reports the similarity. -/
def find_by_phone_fuzzy (ratio : String → String → Nat) (threshold : Nat)
    (listings : List Listing) (phone : Option String) (address : String) :
    Option Listing × Nat :=
  if ¬truthyS phone ∨ address = "" then (none, 0)
  else
    match listings.find? (fun l => l.contact_phone == phone) with
    | none => (none, 0)
    | some l =>
      let similarity := ratio (pyLower l.address) (pyLower address)
      -- `if similarity > self.similarity_threshold`
      if similarity > threshold then (some l, similarity)
      else (none, similarity)

/-- `DuplicateDetector.find_duplicate`: property hash, then source+external id
(skipped when the external id is falsy), then phone+fuzzy address (skipped
when the phone is falsy). -/
def find_duplicate (ratio : String → String → Nat) (threshold : Nat)
    (listings : List Listing) (property_hash source : String)
    (external_id phone : Option String) (address : String) :
    Option Listing × String :=
  match find_by_property_hash listings property_hash with
  | some l => (some l, "property_hash")
  | none =>
    match (if truthyS external_id then
             find_by_external_id listings source external_id
           else none) with
    | some l => (some l, "external_id")
    | none =>
      if truthyS phone then
        match find_by_phone_fuzzy ratio threshold listings phone address with
        | (some l, similarity) =>
          (some l, s!"phone_fuzzy (similarity: {similarity}%)")
        | (none, _) => (none, "")
      else (none, "")

/-! ## `ListingProcessor` (`app/core/listing_processor.py`)

Log statements are modelled as inert except for the f-string expression
`listing.title[:50]`, which raises `TypeError` when the title attribute is
`None` (lines 162, 167 of the source); those two reachable failure points are
kept as explicit error returns.  The later `listing.title[:50]`
interpolations (lines 201, 235, 239) cannot fail: they run only after the
line-167 guard has established a non-`None` title, and the title is only ever
overwritten with a truthy string. -/

/-- The `Listing(...)` constructor call of `_create_new_listing`
(lines 105-131) plus the subsequent `set_images` call: `has_mamad` is not
passed and keeps its column default `False`; the phone is normalized; the
price-per-sqm is copied verbatim from the raw data. -/
def buildNewListing (id : Nat) (raw : RawListing) (property_hash : String)
    (now : Nat) : Listing :=
  { id := id
    property_hash := property_hash
    source := raw.source
    external_id := raw.external_id
    url := raw.url
    title := raw.title
    description := raw.description
    address := raw.address.getD ""
    city := raw.city
    neighborhood := raw.neighborhood
    street := raw.street
    rooms := raw.rooms
    size_sqm := raw.size_sqm
    floor := raw.floor
    total_floors := raw.total_floors
    has_elevator := raw.has_elevator.getD false
    has_parking := raw.has_parking.getD false
    has_balcony := raw.has_balcony.getD false
    has_mamad := false
    price := raw.price
    price_per_sqm := raw.price_per_sqm
    contact_name := raw.contact_name
    contact_phone := normalize_israeli_phone raw.contact_phone
    first_seen := some now
    last_seen := now
    last_checked := now
    status := "unseen"
    user_note := none
    deal_score := 0
    images := if truthyL raw.images then raw.images.getD [] else [] }

/-- The new listing as persisted: the constructed record with the deal score
computed before any history row exists (a transient ORM object's
`price_history` collection is empty). -/
def newListingRecord (s : Settings) (st : DBState) (raw : RawListing)
    (property_hash : String) (now : Nat) : Listing :=
  let l0 := buildNewListing st.nextId raw property_hash now
  { l0 with deal_score := calculate_score s st.stats [] l0 now }

/-- `ListingProcessor._create_new_listing`: persist the new listing, append
the initial price/description history rows when present, then run the
success log line, whose `listing.title[:50]` raises for a `None` title. -/
def create_new_listing (s : Settings) (st : DBState) (raw : RawListing)
    (property_hash : String) (now : Nat) : DBState × Except String String :=
  let l := newListingRecord s st raw property_hash now
  let st1 : DBState :=
    { st with listings := st.listings ++ [l], nextId := st.nextId + 1 }
  let st2 : DBState :=
    match l.price with
    | some p =>
      if p ≠ 0 then
        { st1 with priceHistory :=
            st1.priceHistory ++ [{ listing_id := l.id, price := p,
                                   price_per_sqm := l.price_per_sqm,
                                   timestamp := now }] }
      else st1
    | none => st1
  let st3 : DBState :=
    match l.description with
    | some d =>
      if d ≠ "" then
        { st2 with descHistory :=
            st2.descHistory ++ [{ listing_id := l.id, description := d,
                                  timestamp := now }] }
      else st2
    | none => st2
  -- line 162: logger.info interpolates `listing.title[:50]`
  match l.title with
  | none => (st3, .error "TypeError: NoneType object is not subscriptable")
  | some _ => (st3, .ok "new")

deriving instance DecidableEq for Except

/-- The per-listing outcome of `_update_existing_listing`: the mutated
listing, the appended history rows, and the returned tag or raised error. -/
structure UpdateResult where
  listing : Listing
  newPrice : Option PriceHistory
  newDesc : Option DescriptionHistory
  outcome : Except String String
  deriving Repr, DecidableEq

/-- The body of `ListingProcessor._update_existing_listing` acting on one
listing (lines 165-243): refresh the seen timestamps, run the price-change
branch (price mutation, price-history append, dismissed-status reset on a
large enough drop), the description-change branch, the opportunistic
url/title overwrite, recompute the deal score, then classify the outcome.
With a stored price of `None` the final `new_price < old_price` comparison
raises `TypeError`; the debug log on entry raises for a `None` title. -/
def updateListing (s : Settings) (stats : List NeighborhoodStats)
    (priceRows : List PriceHistory) (l : Listing) (raw : RawListing)
    (now : Nat) : UpdateResult :=
  -- line 167: logger.debug interpolates `listing.title[:50]`
  match l.title with
  | none =>
    { listing := l, newPrice := none, newDesc := none,
      outcome := .error "TypeError: NoneType object is not subscriptable" }
  | some _ =>
    -- price-change branch (`if new_price and new_price != listing.price`),
    -- computed field-wise: new price, recomputed price-per-sqm, status after
    -- the dismissed-reset check (which reads the not-yet-mutated status and
    -- the `old_price` captured before the assignment), appended row, flag
    let priceStep : Option ℚ × Option ℚ × String × Option PriceHistory × Bool :=
      match raw.price with
      | some np =>
        if np ≠ 0 ∧ l.price ≠ some np then
          let pps :=
            match l.size_sqm with
            | some sz => if sz > 0 then some (np / sz) else l.price_per_sqm
            | none => l.price_per_sqm
          -- `if old_price and new_price < old_price` then the drop check
          let status :=
            match l.price with
            | some op =>
              if op ≠ 0 ∧ np < op then
                if (op - np) / op * 100 ≥ s.min_price_drop_percent_notify ∧
                   l.status = "not_interested" then "unseen"
                else l.status
              else l.status
            | none => l.status
          (some np, pps, status,
           some { listing_id := l.id, price := np, price_per_sqm := pps,
                  timestamp := now }, true)
        else (l.price, l.price_per_sqm, l.status, none, false)
      | none => (l.price, l.price_per_sqm, l.status, none, false)
    -- description-change branch
    let descStep : Option String × Option DescriptionHistory × Bool :=
      match raw.description with
      | some nd =>
        if nd ≠ "" ∧ l.description ≠ some nd then
          (some nd,
           some { listing_id := l.id, description := nd, timestamp := now },
           true)
        else (l.description, none, false)
      | none => (l.description, none, false)
    let newPrice := priceStep.2.2.2.1
    let newDesc := descStep.2.1
    -- the listing after all in-place mutations: refreshed timestamps, the
    -- price/description branches, and the opportunistic url/title overwrite
    let updated : Listing :=
      { l with
        last_seen := now
        last_checked := now
        price := priceStep.1
        price_per_sqm := priceStep.2.1
        status := priceStep.2.2.1
        description := descStep.1
        url := if truthyS raw.url then raw.url else l.url
        title := if truthyS raw.title then raw.title else l.title }
    -- recompute the deal score; the pending price row is visible to the
    -- lazy-loaded relationship through the session autoflush
    let visibleRows := (priceRows ++ newPrice.toList).filter
      (fun r => r.listing_id == l.id)
    let final := { updated with
                   deal_score := calculate_score s stats visibleRows updated now }
    -- outcome classification (lines 234-243)
    let outcome : Except String String :=
      if priceStep.2.2.2.2 then
        match raw.price, l.price with
        | some np, some op =>
          .ok (if np < op then "price_drops" else "updated")
        | _, none =>
          .error "TypeError: < not supported between float and NoneType"
        | none, _ => .ok "updated"  -- unreachable: price_changed needs a price
      else if descStep.2.2 then .ok "updated"
      else .ok "duplicates"
    { listing := final, newPrice := newPrice, newDesc := newDesc,
      outcome := outcome }

/-- `ListingProcessor._update_existing_listing` at the session level: write
the mutated listing back and append the new history rows; the outcome (or
raised error) is passed through while the mutations persist. -/
def update_existing_listing (s : Settings) (st : DBState) (l : Listing)
    (raw : RawListing) (now : Nat) : DBState × Except String String :=
  let r := updateListing s st.stats st.priceHistory l raw now
  ({ st with
     listings := st.listings.map (fun x => if x.id == l.id then r.listing
                                           else x)
     priceHistory := st.priceHistory ++ r.newPrice.toList
     descHistory := st.descHistory ++ r.newDesc.toList }, r.outcome)

/-- `ListingProcessor.process_single_listing`: filter, hash, phone
normalization, duplicate lookup, then update or create. -/
def process_single_listing (s : Settings) (ratio : String → String → Nat)
    (threshold : Nat) (st : DBState) (raw : RawListing) (source : String)
    (now : Nat) : DBState × Except String String :=
  if ¬(passes_all_filters s raw).1 then (st, .ok "filtered")
  else
    let address := raw.address.getD ""
    let rooms := raw.rooms.getD 0
    let size_sqm := raw.size_sqm.getD 0
    let property_hash := generate_property_hash address rooms size_sqm
    -- `normalize_israeli_phone(phone) if phone else None`
    let normalized_phone :=
      if truthyS raw.contact_phone then normalize_israeli_phone raw.contact_phone
      else none
    match find_duplicate ratio threshold st.listings property_hash source
        raw.external_id normalized_phone address with
    | (some l, _) => update_existing_listing s st l raw now
    | (none, _) => create_new_listing s st raw property_hash now

/-- The batch stats dictionary initialised at the top of `process_listings`. -/
def initialStats : List (String × Nat) :=
  [("new", 0), ("updated", 0), ("duplicates", 0), ("filtered", 0),
   ("price_drops", 0)]

/-- `stats[result] += 1`. -/
def bumpStat (stats : List (String × Nat)) (key : String) :
    List (String × Nat) :=
  stats.map (fun p => if p.1 = key then (p.1, p.2 + 1) else p)

/-- The batch loop of `process_listings`:每 per-listing exception is caught
and the listing skipped, everything else increments its outcome counter. -/
def processBatch (s : Settings) (ratio : String → String → Nat)
    (threshold : Nat) (source : String) (now : Nat) :
    DBState → List RawListing → List (String × Nat) →
    DBState × List (String × Nat)
  | st, [], stats => (st, stats)
  | st, raw :: rest, stats =>
    match process_single_listing s ratio threshold st raw source now with
    | (st1, .ok tag) => processBatch s ratio threshold source now st1 rest
        (bumpStat stats tag)
    | (st1, .error _) => processBatch s ratio threshold source now st1 rest
        stats

/-- `ListingProcessor.process_listings`. -/
def process_listings (s : Settings) (ratio : String → String → Nat)
    (threshold : Nat) (st : DBState) (raws : List RawListing)
    (source : String) (now : Nat) : DBState × List (String × Nat) :=
  processBatch s ratio threshold source now st raws initialStats

/-! ## Concrete sample data used by witnesses and counterexamples -/

/-- A concrete configuration (the `app/core/config.py` defaults with an
empty city allow-list, an integral 2-room minimum, and the spec section 4.4
scoring weights). -/
def sampleSettings : Settings := { min_rooms := 2 }

/-- A well-formed raw listing that passes every default filter. -/
def sampleRaw : RawListing :=
  { source := some "yad2", external_id := some "y1",
    url := some "http://example/1", title := some "Nice flat",
    description := some "park view", address := some "Rothschild 5",
    rooms := some 3, size_sqm := some 80, floor := some 2,
    total_floors := some 4, price := some 2000000,
    contact_phone := some "050-123-4567" }

/-- A constant similarity function (used where the fuzzy strategy is
irrelevant). -/
def ratioZero : String → String → Nat := fun _ _ => 0

/-- The discrete similarity function agreeing with `fuzz.ratio` on the two
kinds of pairs used below: identical strings have ratio 100, and strings
with disjoint alphabets of equal length have ratio 0. -/
def ratioOnEqual : String → String → Nat := fun a b => if a = b then 100 else 0

/-! ## Claim C3: property-hash normalization -/

/-- A string whose whitespace characters are all plain spaces. -/
def onlySpaceWS (s : String) : Prop :=
  ∀ c ∈ s.data, pyIsWS c = true → c = ' '

instance (s : String) : Decidable (onlySpaceWS s) := by
  unfold onlySpaceWS
  infer_instance

theorem pyLowerChar_eq_space (c : Char) : (pyLowerChar c = ' ') ↔ (c = ' ') := by
  unfold pyLowerChar
  split <;> simp_all

theorem pyIsWS_pyLowerChar (c : Char) : pyIsWS (pyLowerChar c) = pyIsWS c := by
  unfold pyLowerChar
  split <;> rfl

theorem dropSpaces_map_lower (l : List Char) :
    dropSpaces (l.map pyLowerChar) = (dropSpaces l).map pyLowerChar := by
  induction l with
  | nil => rfl
  | cons c t ih =>
    simp only [List.map_cons, dropSpaces, List.filter_cons]
    by_cases hc : c = ' '
    · subst hc
      simpa [dropSpaces] using ih
    · have h1 : (pyLowerChar c == ' ') = false := by
        simp only [beq_eq_false_iff_ne, ne_eq]
        exact fun h => hc ((pyLowerChar_eq_space c).mp h)
      have h2 : (c == ' ') = false := by
        simp [hc]
      simp only [h1, h2, Bool.not_false, if_pos, List.map_cons]
      simpa [dropSpaces] using congrArg (List.cons (pyLowerChar c)) ih

theorem onlySpaceList_map_lower (l : List Char)
    (h : ∀ c ∈ l, pyIsWS c = true → c = ' ') :
    ∀ c ∈ l.map pyLowerChar, pyIsWS c = true → c = ' ' := by
  intro c hc hws
  rcases List.mem_map.mp hc with ⟨d, hd, rfl⟩
  rw [pyIsWS_pyLowerChar] at hws
  rw [h d hd hws]
  rfl

theorem dropSpaces_dropWhile (l : List Char)
    (h : ∀ c ∈ l, pyIsWS c = true → c = ' ') :
    dropSpaces (l.dropWhile pyIsWS) = dropSpaces l := by
  induction l with
  | nil => rfl
  | cons c t ih =>
    by_cases hws : pyIsWS c = true
    · have hsp : c = ' ' := h c (List.mem_cons_self c t) hws
      subst hsp
      rw [List.dropWhile_cons_of_pos hws]
      have : dropSpaces (' ' :: t) = dropSpaces t := by
        simp [dropSpaces, List.filter_cons]
      rw [this]
      exact ih (fun d hd => h d (List.mem_cons_of_mem _ hd))
    · rw [List.dropWhile_cons_of_neg hws]

theorem dropSpaces_reverse (l : List Char) :
    dropSpaces l.reverse = (dropSpaces l).reverse := by
  simp [dropSpaces, List.filter_reverse]

theorem dropSpaces_strip (l : List Char)
    (h : ∀ c ∈ l, pyIsWS c = true → c = ' ') :
    dropSpaces (pyStripChars l) = dropSpaces l := by
  unfold pyStripChars
  have h1 : ∀ c ∈ l.dropWhile pyIsWS, pyIsWS c = true → c = ' ' :=
    fun c hc => h c ((List.dropWhile_sublist pyIsWS (l := l)).subset hc)
  have h2 : ∀ c ∈ (l.dropWhile pyIsWS).reverse, pyIsWS c = true → c = ' ' :=
    fun c hc => h1 c (List.mem_reverse.mp hc)
  rw [dropSpaces_reverse, dropSpaces_dropWhile _ h2, dropSpaces_reverse,
      List.reverse_reverse, dropSpaces_dropWhile _ h]

theorem normalizeAddress_of_space_variant (a₁ a₂ : String)
    (h₁ : onlySpaceWS a₁) (h₂ : onlySpaceWS a₂)
    (h : pyDropSpaces a₁ = pyDropSpaces a₂) :
    normalizeAddress a₁ = normalizeAddress a₂ := by
  have hd : dropSpaces a₁.data = dropSpaces a₂.data := by
    have := congrArg String.data h
    simpa [pyDropSpaces] using this
  unfold normalizeAddress pyDropSpaces pyStrip pyLower
  simp only [String.data]
  congr 1
  rw [dropSpaces_strip _ (onlySpaceList_map_lower _ h₁),
      dropSpaces_strip _ (onlySpaceList_map_lower _ h₂),
      dropSpaces_map_lower, dropSpaces_map_lower, hd]

/-- C3 (amended): `generate_property_hash` is a pure function of
`(address, rooms, size)` — determinism is definitional — and the digest is
invariant under letter-case changes of the address and under space-only
changes (for addresses whose whitespace consists of plain spaces), because
the address is lower-cased, trimmed of leading/trailing whitespace, and
stripped of all space characters before hashing
`normalized_address + "_" + rooms + "_" + size`.  Interior non-space
whitespace survives normalization and can change the digest. -/
theorem C3_property_hash_normalization (a₁ a₂ : String) (rooms size : ℚ) :
    (pyLower a₁ = pyLower a₂ →
       generate_property_hash a₁ rooms size =
       generate_property_hash a₂ rooms size) ∧
    (onlySpaceWS a₁ → onlySpaceWS a₂ → pyDropSpaces a₁ = pyDropSpaces a₂ →
       generate_property_hash a₁ rooms size =
       generate_property_hash a₂ rooms size) := by
  constructor
  · intro h
    unfold generate_property_hash normalizeAddress
    rw [h]
  · intro h₁ h₂ h
    unfold generate_property_hash
    rw [normalizeAddress_of_space_variant a₁ a₂ h₁ h₂ h]

/-- Witness for C3: the space-only variants "Main  St 5" and "MainSt5"
produce identical digests at rooms 3 and size 80. -/
theorem C3_property_hash_normalization_witness :
    onlySpaceWS "Main  St 5" ∧ onlySpaceWS "MainSt5" ∧
    pyDropSpaces "Main  St 5" = pyDropSpaces "MainSt5" ∧
    generate_property_hash "Main  St 5" 3 80 =
      generate_property_hash "MainSt5" 3 80 :=
  ⟨by decide, by decide, by decide,
   (C3_property_hash_normalization "Main  St 5" "MainSt5" 3 80).2
     (by decide) (by decide) (by decide)⟩

/-- Counterexample for C3 as frozen: "Rothschild 5" and "Rothschild\t5"
differ only in whitespace (equal after deleting every whitespace character),
yet their property hashes differ, because the normalization removes spaces
but keeps an interior tab. -/
theorem C3_counterexample_tab_whitespace :
    eraseAllWS "Rothschild 5" = eraseAllWS "Rothschild\t5" ∧
    generate_property_hash "Rothschild 5" 3 80 ≠
      generate_property_hash "Rothschild\t5" 3 80 := by
  exact ⟨by decide, by decide⟩

/-! ## Claim C1: duplicate-detection strategy priority -/

/-- C1: `find_duplicate` tries its strategies in strict priority order with
the first hit winning: a property-hash hit is returned with tag
"property_hash" no matter what the other strategies would find; the
source+external-id lookup runs only after a hash miss (and finds nothing for
a falsy external id); the phone+fuzzy lookup runs only after both misses and
only for a truthy phone; when no strategy matches the result is `(none, "")`. -/
theorem C1_find_duplicate_priority (ratio : String → String → Nat)
    (threshold : Nat) (listings : List Listing)
    (property_hash source : String) (external_id phone : Option String)
    (address : String) :
    (∀ l, find_by_property_hash listings property_hash = some l →
       find_duplicate ratio threshold listings property_hash source
         external_id phone address = (some l, "property_hash")) ∧
    (find_by_property_hash listings property_hash = none →
     ∀ l, find_by_external_id listings source external_id = some l →
       find_duplicate ratio threshold listings property_hash source
         external_id phone address = (some l, "external_id")) ∧
    (find_by_property_hash listings property_hash = none →
     find_by_external_id listings source external_id = none →
     ∀ l similarity,
       find_by_phone_fuzzy ratio threshold listings phone address =
         (some l, similarity) →
       truthyS phone = true →
       find_duplicate ratio threshold listings property_hash source
         external_id phone address =
         (some l, s!"phone_fuzzy (similarity: {similarity}%)")) ∧
    (find_by_property_hash listings property_hash = none →
     find_by_external_id listings source external_id = none →
     (find_by_phone_fuzzy ratio threshold listings phone address).1 = none →
     find_duplicate ratio threshold listings property_hash source
       external_id phone address = (none, "")) := by
  have hext : (if truthyS external_id then
                 find_by_external_id listings source external_id
               else none) = find_by_external_id listings source external_id := by
    by_cases h : truthyS external_id
    · rw [if_pos h]
    · rw [if_neg h]
      unfold find_by_external_id
      rw [if_pos h]
  refine ⟨?_, ?_, ?_, ?_⟩
  · intro l hl
    unfold find_duplicate
    rw [hl]
  · intro hh l hl
    unfold find_duplicate
    rw [hh, hext, hl]
  · intro hh he l similarity hf hp
    unfold find_duplicate
    rw [hh, hext, he, if_pos hp, hf]
  · intro hh he hf
    unfold find_duplicate
    rw [hh, hext, he]
    by_cases hp : truthyS phone
    · rw [if_pos hp]
      rcases hfz : find_by_phone_fuzzy ratio threshold listings phone address
        with ⟨fst, snd⟩
      rw [hfz] at hf
      simp only at hf
      subst hf
      rfl
    · rw [if_neg hp]

/-- Stored listing matching the probe by property hash. -/
def dupA : Listing :=
  { id := 1, property_hash := "H", source := some "yad2",
    external_id := some "y1", title := some "A" }

/-- A different stored listing matching the probe by source+external id. -/
def dupB : Listing :=
  { id := 2, property_hash := "H2", source := some "yad2",
    external_id := some "y2", title := some "B" }

/-- Witness for C1: a probe matching `dupA` by hash and the distinct `dupB`
by source+external id is resolved to `dupA` with tag "property_hash". -/
theorem C1_find_duplicate_priority_witness :
    find_by_property_hash [dupA, dupB] "H" = some dupA ∧
    find_by_external_id [dupA, dupB] "yad2" (some "y2") = some dupB ∧
    dupA ≠ dupB ∧
    find_duplicate ratioZero 85 [dupA, dupB] "H" "yad2" (some "y2") none
      "addr" = (some dupA, "property_hash") :=
  ⟨by decide, by decide, by decide,
   (C1_find_duplicate_priority ratioZero 85 [dupA, dupB] "H" "yad2"
     (some "y2") none "addr").1 dupA (by decide)⟩

/-! ## Claim C2: fuzzy-match threshold boundary -/

/-- C2 (amended): for the first stored listing sharing the probe's phone,
`find_by_phone_fuzzy` accepts the pair exactly when the case-insensitive
address similarity STRICTLY exceeds the threshold (`similarity >
self.similarity_threshold`); a pair whose similarity equals the threshold is
rejected, and the similarity value is always reported. -/
theorem C2_fuzzy_threshold_strict (ratio : String → String → Nat)
    (threshold : Nat) (listings : List Listing) (phone : Option String)
    (address : String) (l : Listing)
    (hp : truthyS phone = true) (ha : address ≠ "")
    (hl : listings.find? (fun x => x.contact_phone == phone) = some l) :
    ((find_by_phone_fuzzy ratio threshold listings phone address).1 = some l ↔
       ratio (pyLower l.address) (pyLower address) > threshold) ∧
    (find_by_phone_fuzzy ratio threshold listings phone address).2 =
       ratio (pyLower l.address) (pyLower address) := by
  unfold find_by_phone_fuzzy
  rw [if_neg (by simp [hp, ha]), hl]
  dsimp only
  by_cases hgt : ratio (pyLower l.address) (pyLower address) > threshold
  · rw [if_pos hgt]
    exact ⟨by simp [hgt], rfl⟩
  · rw [if_neg hgt]
    exact ⟨by simp [hgt], rfl⟩

/-- A stored listing with a normalized phone, for the fuzzy-match scenarios. -/
def phoneL : Listing :=
  { id := 3, property_hash := "PH", address := "Main St 5",
    contact_phone := some "0501234567", title := some "P" }

/-- Witness for C2: with similarity 100 strictly above threshold 85 the
phone-sharing listing is accepted. -/
theorem C2_fuzzy_threshold_strict_witness :
    truthyS (some "0501234567") = true ∧
    (find_by_phone_fuzzy ratioOnEqual 85 [phoneL] (some "0501234567")
      "Main St 5").1 = some phoneL :=
  ⟨by decide,
   ((C2_fuzzy_threshold_strict ratioOnEqual 85 [phoneL] (some "0501234567")
      "Main St 5" phoneL (by decide) (by decide) (by decide)).1).mpr
     (by decide)⟩

/-- Counterexample for C2 as frozen: `fuzz.ratio` of two identical strings is
exactly 100, so with a configured threshold of 100 the probe's similarity
EQUALS the threshold — the claim requires acceptance, but the code rejects
the pair because it tests `similarity > threshold` strictly. -/
theorem C2_counterexample_similarity_at_threshold :
    ratioOnEqual (pyLower phoneL.address) (pyLower "Main St 5") = 100 ∧
    (find_by_phone_fuzzy ratioOnEqual 100 [phoneL] (some "0501234567")
      "Main St 5") = (none, 100) :=
  ⟨by decide, by decide⟩

/-! ## Claim C7: price-trend staircase -/

theorem length_insertPHDesc (r : PriceHistory) (l : List PriceHistory) :
    (insertPHDesc r l).length = l.length + 1 := by
  induction l with
  | nil => rfl
  | cons x xs ih =>
    unfold insertPHDesc
    by_cases h : r.timestamp > x.timestamp
    · rw [if_pos h]
      rfl
    · rw [if_neg h]
      simp [ih]

theorem length_sortPHDesc (l : List PriceHistory) :
    (sortPHDesc l).length = l.length := by
  induction l with
  | nil => rfl
  | cons x xs ih =>
    unfold sortPHDesc
    rw [length_insertPHDesc, ih]
    rfl

theorem score_price_trend_eval (s : Settings) (hist : List PriceHistory)
    (r0 r1 : PriceHistory) (rest : List PriceHistory)
    (hsort : sortPHDesc hist = r0 :: r1 :: rest) :
    score_price_trend s hist =
      (let max_score := s.deal_score_weight_price_trend
       let neutral := max_score * (333/1000)
       if r0.price = 0 ∨ r1.price ≤ 0 then neutral
       else
         let pct := (r0.price - r1.price) / r1.price * 100
         if pct ≤ -10 then max_score
         else if pct ≤ -5 then max_score * (8/10)
         else if pct ≤ -2 then max_score * (6/10)
         else if pct < 0 then max_score * (467/1000)
         else if pct = 0 then neutral
         else max_score * (133/1000)) := by
  have hlen : ¬ hist.length < 2 := by
    have h := length_sortPHDesc hist
    rw [hsort] at h
    simp only [List.length_cons] at h
    omega
  unfold score_price_trend
  rw [if_neg hlen, hsort]

/-- C7 (amended): with the price-trend weight 15 the trend component returns
exactly `4.995` (= 15 x 0.333, not 5) when fewer than 2 history rows exist or
the previous price is non-positive (or the current price is falsy); otherwise,
comparing the two most recent prices, it returns 15 for a percent change
<= -10, 12 for <= -5, 9 for <= -2, `7.005` (= 15 x 0.467, not 7) for any
smaller negative change, `4.995` for zero change and `1.995` (= 15 x 0.133,
not 2) for an increase. -/
theorem C7_price_trend_values (s : Settings) (hist : List PriceHistory)
    (hw : s.deal_score_weight_price_trend = 15) :
    (hist.length < 2 → score_price_trend s hist = 4995/1000) ∧
    (∀ r0 r1 rest, sortPHDesc hist = r0 :: r1 :: rest →
      ((r0.price = 0 ∨ r1.price ≤ 0) → score_price_trend s hist = 4995/1000) ∧
      (r0.price ≠ 0 → 0 < r1.price →
        ((r0.price - r1.price) / r1.price * 100 ≤ -10 →
           score_price_trend s hist = 15) ∧
        (-10 < (r0.price - r1.price) / r1.price * 100 →
         (r0.price - r1.price) / r1.price * 100 ≤ -5 →
           score_price_trend s hist = 12) ∧
        (-5 < (r0.price - r1.price) / r1.price * 100 →
         (r0.price - r1.price) / r1.price * 100 ≤ -2 →
           score_price_trend s hist = 9) ∧
        (-2 < (r0.price - r1.price) / r1.price * 100 →
         (r0.price - r1.price) / r1.price * 100 < 0 →
           score_price_trend s hist = 7005/1000) ∧
        ((r0.price - r1.price) / r1.price * 100 = 0 →
           score_price_trend s hist = 4995/1000) ∧
        (0 < (r0.price - r1.price) / r1.price * 100 →
           score_price_trend s hist = 1995/1000))) := by
  constructor
  · intro hlen
    unfold score_price_trend
    rw [if_pos hlen, hw]
    norm_num
  · intro r0 r1 rest hsort
    rw [score_price_trend_eval s hist r0 r1 rest hsort]
    dsimp only
    rw [hw]
    constructor
    · intro hz
      rw [if_pos hz]
      norm_num
    · intro hc hp
      have hz : ¬(r0.price = 0 ∨ r1.price ≤ 0) := by
        push_neg
        exact ⟨hc, hp⟩
      rw [if_neg hz]
      refine ⟨?_, ?_, ?_, ?_, ?_, ?_⟩
      · intro h1
        rw [if_pos h1]
      · intro h1 h2
        rw [if_neg (by linarith), if_pos h2]
        norm_num
      · intro h1 h2
        rw [if_neg (by linarith), if_neg (by linarith), if_pos h2]
        norm_num
      · intro h1 h2
        rw [if_neg (by linarith), if_neg (by linarith), if_neg (by linarith),
            if_pos h2]
        norm_num
      · intro h1
        rw [if_neg (by linarith), if_neg (by linarith), if_neg (by linarith),
            if_neg (by linarith), if_pos h1]
        norm_num
      · intro h1
        rw [if_neg (by linarith), if_neg (by linarith), if_neg (by linarith),
            if_neg (by linarith), if_neg (by linarith)]
        norm_num

/-- The older price row of the witness history. -/
def trendRowOld : PriceHistory := { listing_id := 9, price := 100, timestamp := 1 }

/-- The newer price row of the witness history (a 10% drop). -/
def trendRowNew : PriceHistory := { listing_id := 9, price := 90, timestamp := 2 }

/-- Witness for C7: a 10% drop between the two most recent prices scores the
full 15 points under the weight-15 configuration. -/
theorem C7_price_trend_values_witness :
    score_price_trend sampleSettings [trendRowOld, trendRowNew] = 15 :=
  (((C7_price_trend_values sampleSettings [trendRowOld, trendRowNew]
      rfl).2 trendRowNew trendRowOld [] (by decide)).2
      (by norm_num [trendRowNew])
      (by norm_num [trendRowOld])).1
      (by norm_num [trendRowNew, trendRowOld])

/-- Counterexample for C7 as frozen: with weight 15 and no price history the
trend component evaluates to 15 x 0.333 = 4.995, not the exact neutral 5 the
claim states. -/
theorem C7_counterexample_neutral_not_five :
    sampleSettings.deal_score_weight_price_trend = 15 ∧
    score_price_trend sampleSettings [] = 4995/1000 ∧
    score_price_trend sampleSettings [] ≠ 5 := by
  have h : score_price_trend sampleSettings [] = 4995/1000 := by
    unfold score_price_trend
    rw [if_pos (by decide)]
    show (15 : ℚ) * (333/1000) = 4995/1000
    norm_num
  refine ⟨rfl, h, by rw [h]; norm_num⟩

/-! ## Claim C6: price-per-sqm on the create path -/

/-- C6 (amended): `_create_new_listing` copies the scraped `price_per_sqm`
field into the new listing verbatim; it does not derive it from price and
size (only the update path recomputes `price / size_sqm` on a price change).
The second conjunct ties the copied record to the state actually persisted. -/
theorem C6_price_per_sqm_copied (s : Settings) (st : DBState)
    (raw : RawListing) (property_hash : String) (now : Nat) :
    (newListingRecord s st raw property_hash now).price_per_sqm =
      raw.price_per_sqm ∧
    (create_new_listing s st raw property_hash now).1.listings =
      st.listings ++ [newListingRecord s st raw property_hash now] := by
  constructor
  · rfl
  · unfold create_new_listing
    dsimp only
    repeat' split
    all_goals rfl

/-- Counterexample for C6 as frozen: `sampleRaw` carries price 2000000 and
size 80 but no scraped `price_per_sqm`; the created listing stores `none`,
not the derived 2000000 / 80 = 25000. -/
theorem C6_counterexample_not_derived :
    sampleRaw.price = some 2000000 ∧ sampleRaw.size_sqm = some 80 ∧
    (newListingRecord sampleSettings {} sampleRaw "H" 0).price_per_sqm = none ∧
    (newListingRecord sampleSettings {} sampleRaw "H" 0).price_per_sqm ≠
      some (2000000 / 80) :=
  ⟨rfl, rfl, rfl, by decide⟩

/-! ## Claim C10: `has_mamad` is never populated from scraped data -/

/-- C10: the `Listing` constructor call in `_create_new_listing` omits
`has_mamad`, so the created listing always carries the column default
`False`, the created record is entirely independent of the scraped
`has_mamad` value, and a listing without a mamad receives no mamad
feature-match credit (the mamad preference weight only inflates the
denominator). -/
theorem C10_mamad_defaults_false (s : Settings) (st : DBState)
    (raw : RawListing) (property_hash : String) (now : Nat) (b : Option Bool) :
    (newListingRecord s st raw property_hash now).has_mamad = false ∧
    newListingRecord s st { raw with has_mamad := b } property_hash now =
      newListingRecord s st raw property_hash now ∧
    (∀ l : Listing, l.has_mamad = false →
       score_features s l = score_features_without_mamad_credit s l) := by
  refine ⟨rfl, rfl, ?_⟩
  intro l h
  unfold score_features score_features_without_mamad_credit featureList
  rw [h]

/-- Witness for C10 at concrete data: a raw listing scraped with
`has_mamad=True` still produces a listing with `has_mamad = False`, and that
listing's feature score carries no mamad credit. -/
theorem C10_mamad_defaults_false_witness :
    (newListingRecord sampleSettings {}
       { sampleRaw with has_mamad := some true } "H" 0).has_mamad = false ∧
    score_features sampleSettings
        (newListingRecord sampleSettings {} sampleRaw "H" 0) =
      score_features_without_mamad_credit sampleSettings
        (newListingRecord sampleSettings {} sampleRaw "H" 0) :=
  ⟨(C10_mamad_defaults_false sampleSettings {}
      { sampleRaw with has_mamad := some true } "H" 0 none).1,
   (C10_mamad_defaults_false sampleSettings {} sampleRaw "H" 0 none).2.2
     (newListingRecord sampleSettings {} sampleRaw "H" 0) rfl⟩

/-! ## Field-level characterizations of `_update_existing_listing` -/

theorem updateListing_status (s : Settings) (stats : List NeighborhoodStats)
    (rows : List PriceHistory) (l : Listing) (raw : RawListing) (now : Nat)
    (t : String) (ht : l.title = some t) :
    (updateListing s stats rows l raw now).listing.status =
      (match raw.price with
       | some np =>
         if np ≠ 0 ∧ l.price ≠ some np then
           match l.price with
           | some op =>
             if op ≠ 0 ∧ np < op then
               if (op - np) / op * 100 ≥ s.min_price_drop_percent_notify ∧
                  l.status = "not_interested" then "unseen" else l.status
             else l.status
           | none => l.status
         else l.status
       | none => l.status) := by
  unfold updateListing
  rw [ht]
  cases raw.price with
  | none => rfl
  | some np =>
    by_cases h : np ≠ 0 ∧ l.price ≠ some np
    · simp only [if_pos h]
    · simp only [if_neg h]

theorem updateListing_price (s : Settings) (stats : List NeighborhoodStats)
    (rows : List PriceHistory) (l : Listing) (raw : RawListing) (now : Nat)
    (t : String) (ht : l.title = some t) :
    (updateListing s stats rows l raw now).listing.price =
      (match raw.price with
       | some np => if np ≠ 0 ∧ l.price ≠ some np then some np else l.price
       | none => l.price) := by
  unfold updateListing
  rw [ht]
  cases raw.price with
  | none => rfl
  | some np =>
    by_cases h : np ≠ 0 ∧ l.price ≠ some np
    · simp only [if_pos h]
    · simp only [if_neg h]

theorem updateListing_seen (s : Settings) (stats : List NeighborhoodStats)
    (rows : List PriceHistory) (l : Listing) (raw : RawListing) (now : Nat)
    (t : String) (ht : l.title = some t) :
    (updateListing s stats rows l raw now).listing.last_seen = now ∧
    (updateListing s stats rows l raw now).listing.last_checked = now ∧
    (updateListing s stats rows l raw now).listing.first_seen = l.first_seen := by
  unfold updateListing
  rw [ht]
  exact ⟨rfl, rfl, rfl⟩

theorem updateListing_newPrice (s : Settings) (stats : List NeighborhoodStats)
    (rows : List PriceHistory) (l : Listing) (raw : RawListing) (now : Nat)
    (t : String) (ht : l.title = some t) :
    (updateListing s stats rows l raw now).newPrice =
      (match raw.price with
       | some np =>
         if np ≠ 0 ∧ l.price ≠ some np then
           some { listing_id := l.id, price := np,
                  price_per_sqm :=
                    match l.size_sqm with
                    | some sz => if sz > 0 then some (np / sz)
                                 else l.price_per_sqm
                    | none => l.price_per_sqm,
                  timestamp := now }
         else none
       | none => none) := by
  unfold updateListing
  rw [ht]
  cases raw.price with
  | none => rfl
  | some np =>
    by_cases h : np ≠ 0 ∧ l.price ≠ some np
    · simp only [if_pos h]
    · simp only [if_neg h]

theorem updateListing_newDesc (s : Settings) (stats : List NeighborhoodStats)
    (rows : List PriceHistory) (l : Listing) (raw : RawListing) (now : Nat)
    (t : String) (ht : l.title = some t) :
    (updateListing s stats rows l raw now).newDesc =
      (match raw.description with
       | some nd =>
         if nd ≠ "" ∧ l.description ≠ some nd then
           some { listing_id := l.id, description := nd, timestamp := now }
         else none
       | none => none) := by
  unfold updateListing
  rw [ht]
  cases raw.description with
  | none => rfl
  | some nd =>
    by_cases h : nd ≠ "" ∧ l.description ≠ some nd
    · simp only [if_pos h]
    · simp only [if_neg h]

theorem updateListing_description (s : Settings)
    (stats : List NeighborhoodStats) (rows : List PriceHistory) (l : Listing)
    (raw : RawListing) (now : Nat) (t : String) (ht : l.title = some t) :
    (updateListing s stats rows l raw now).listing.description =
      (match raw.description with
       | some nd => if nd ≠ "" ∧ l.description ≠ some nd then some nd
                    else l.description
       | none => l.description) := by
  unfold updateListing
  rw [ht]
  cases raw.description with
  | none => rfl
  | some nd =>
    by_cases h : nd ≠ "" ∧ l.description ≠ some nd
    · simp only [if_pos h]
    · simp only [if_neg h]

theorem updateListing_outcome (s : Settings) (stats : List NeighborhoodStats)
    (rows : List PriceHistory) (l : Listing) (raw : RawListing) (now : Nat)
    (t : String) (ht : l.title = some t) :
    (updateListing s stats rows l raw now).outcome =
      (match raw.price with
       | some np =>
         if np ≠ 0 ∧ l.price ≠ some np then
           match l.price with
           | some op => .ok (if np < op then "price_drops" else "updated")
           | none =>
             .error "TypeError: < not supported between float and NoneType"
         else
           match raw.description with
           | some nd =>
             if nd ≠ "" ∧ l.description ≠ some nd then .ok "updated"
             else .ok "duplicates"
           | none => .ok "duplicates"
       | none =>
         match raw.description with
         | some nd =>
           if nd ≠ "" ∧ l.description ≠ some nd then .ok "updated"
           else .ok "duplicates"
         | none => .ok "duplicates") := by
  unfold updateListing
  rw [ht]
  cases raw.price with
  | none =>
    cases raw.description with
    | none => rfl
    | some nd =>
      by_cases h : nd ≠ "" ∧ l.description ≠ some nd
      · simp [if_pos h]
      · simp [if_neg h]
  | some np =>
    by_cases h : np ≠ 0 ∧ l.price ≠ some np
    · simp only [if_pos h]
      cases l.price with
      | none => rfl
      | some op => rfl
    · simp only [if_neg h]
      cases raw.description with
      | none => rfl
      | some nd =>
        by_cases h2 : nd ≠ "" ∧ l.description ≠ some nd
        · simp [if_pos h2]
        · simp [if_neg h2]

/-! ## Claim C5: price drop re-opens dismissed listings -/

/-- C5 (amended): for every stored listing with a non-null title (the entry
log line raises on a null one), stored price `op > 0` and status
"not_interested", an update carrying a positive price `np < op` whose drop
percentage reaches `min_price_drop_percent_notify` resets the status to
"unseen"; a drop below the threshold, or any other current status, leaves
the status field unchanged. -/
theorem C5_price_drop_resets_status (s : Settings)
    (stats : List NeighborhoodStats) (rows : List PriceHistory) (l : Listing)
    (raw : RawListing) (now : Nat) (t : String) (op np : ℚ)
    (ht : l.title = some t) (hop : l.price = some op) (hop0 : 0 < op)
    (hnp : raw.price = some np) (hnp0 : 0 < np) :
    (np < op → (op - np) / op * 100 ≥ s.min_price_drop_percent_notify →
       l.status = "not_interested" →
       (updateListing s stats rows l raw now).listing.status = "unseen") ∧
    (np < op → (op - np) / op * 100 < s.min_price_drop_percent_notify →
       (updateListing s stats rows l raw now).listing.status = l.status) ∧
    (l.status ≠ "not_interested" →
       (updateListing s stats rows l raw now).listing.status = l.status) := by
  rw [updateListing_status s stats rows l raw now t ht, hnp, hop]
  dsimp only
  refine ⟨?_, ?_, ?_⟩
  · intro h1 h2 h3
    rw [if_pos ⟨ne_of_gt hnp0, by simp [ne_of_gt h1]⟩,
        if_pos ⟨ne_of_gt hop0, h1⟩, if_pos ⟨h2, h3⟩]
  · intro h1 h2
    rw [if_pos ⟨ne_of_gt hnp0, by simp [ne_of_gt h1]⟩,
        if_pos ⟨ne_of_gt hop0, h1⟩, if_neg (by rintro ⟨hge, -⟩; linarith)]
  · intro h3
    by_cases hc : np ≠ 0 ∧ (some op : Option ℚ) ≠ some np
    · rw [if_pos hc]
      by_cases hd : op ≠ 0 ∧ np < op
      · rw [if_pos hd, if_neg (by rintro ⟨-, hst⟩; exact h3 hst)]
      · rw [if_neg hd]
    · rw [if_neg hc]

/-- A dismissed stored listing with price 100. -/
def dropListing : Listing :=
  { id := 7, property_hash := "C5H", title := some "T", price := some 100,
    status := "not_interested" }

/-- An update carrying only the new price 90 (a 10% drop). -/
def dropRaw : RawListing := { price := some 90 }

/-- Witness for C5: a 10% drop at the default 3% notify threshold resets the
dismissed listing to "unseen". -/
theorem C5_price_drop_resets_status_witness :
    sampleSettings.min_price_drop_percent_notify = 3 ∧
    (updateListing sampleSettings [] [] dropListing dropRaw 5).listing.status =
      "unseen" :=
  ⟨rfl,
   (C5_price_drop_resets_status sampleSettings [] [] dropListing dropRaw 5
      "T" 100 90 rfl rfl (by norm_num) rfl (by norm_num)).1
     (by norm_num) (by norm_num [sampleSettings]) rfl⟩

/-- A dismissed stored listing whose title is NULL. -/
def dropListingNoTitle : Listing :=
  { id := 8, property_hash := "C5N", title := none, price := some 100,
    status := "not_interested" }

/-- Counterexample for C5 as frozen: a stored listing with a NULL title and a
qualifying 10% price drop is NOT reset — the update raises `TypeError` in the
entry log line (`listing.title[:50]`) before any mutation, so the status
stays "not_interested". -/
theorem C5_counterexample_null_title :
    dropListingNoTitle.status = "not_interested" ∧
    dropListingNoTitle.price = some 100 ∧ dropRaw.price = some 90 ∧
    ((100 : ℚ) - 90) / 100 * 100 ≥ sampleSettings.min_price_drop_percent_notify ∧
    (updateListing sampleSettings [] [] dropListingNoTitle dropRaw
       5).listing.status = "not_interested" ∧
    (updateListing sampleSettings [] [] dropListingNoTitle dropRaw 5).outcome =
      .error "TypeError: NoneType object is not subscriptable" :=
  ⟨rfl, rfl, rfl, by norm_num [sampleSettings], rfl, rfl⟩

/-! ## Claim C9: update with a NULL stored price raises at classification -/

/-- C9 (amended): for every stored listing with a non-null title but a NULL
stored price, and every raw update carrying a truthy price, the price-change
branch runs — `last_seen`/`last_checked` are refreshed, the price is set and
a `PriceHistory` row is appended — and the final outcome classification
evaluates `new_price < old_price` with `old_price = None`, raising
`TypeError`; at this layer the session keeps the partial mutation (the
returned state contains the mutated listing and the appended row) while the
error propagates to the batch handler. -/
theorem C9_null_price_type_error (s : Settings) (st : DBState) (l : Listing)
    (raw : RawListing) (now : Nat) (t : String) (np : ℚ)
    (ht : l.title = some t) (hpn : l.price = none)
    (hnp : raw.price = some np) (hnp0 : np ≠ 0) :
    (updateListing s st.stats st.priceHistory l raw now).outcome =
      .error "TypeError: < not supported between float and NoneType" ∧
    (updateListing s st.stats st.priceHistory l raw now).listing.price =
      some np ∧
    (updateListing s st.stats st.priceHistory l raw now).listing.last_seen =
      now ∧
    (updateListing s st.stats st.priceHistory l raw now).listing.last_checked =
      now ∧
    (updateListing s st.stats st.priceHistory l raw now).newPrice =
      some { listing_id := l.id, price := np,
             price_per_sqm :=
               match l.size_sqm with
               | some sz => if sz > 0 then some (np / sz) else l.price_per_sqm
               | none => l.price_per_sqm,
             timestamp := now } ∧
    (update_existing_listing s st l raw now).1.priceHistory =
      st.priceHistory ++
        [{ listing_id := l.id, price := np,
           price_per_sqm :=
             match l.size_sqm with
             | some sz => if sz > 0 then some (np / sz) else l.price_per_sqm
             | none => l.price_per_sqm,
           timestamp := now }] ∧
    (update_existing_listing s st l raw now).2 =
      (updateListing s st.stats st.priceHistory l raw now).outcome := by
  have hcond : np ≠ 0 ∧ l.price ≠ some np := ⟨hnp0, by rw [hpn]; simp⟩
  have hrow : (updateListing s st.stats st.priceHistory l raw now).newPrice =
      some { listing_id := l.id, price := np,
             price_per_sqm :=
               match l.size_sqm with
               | some sz => if sz > 0 then some (np / sz) else l.price_per_sqm
               | none => l.price_per_sqm,
             timestamp := now } := by
    rw [updateListing_newPrice s st.stats st.priceHistory l raw now t ht, hnp]
    dsimp only
    rw [if_pos hcond]
  refine ⟨?_, ?_, (updateListing_seen s st.stats st.priceHistory l raw now
    t ht).1, (updateListing_seen s st.stats st.priceHistory l raw now
    t ht).2.1, hrow, ?_, rfl⟩
  · rw [updateListing_outcome s st.stats st.priceHistory l raw now t ht, hnp]
    dsimp only
    rw [if_pos hcond, hpn]
  · rw [updateListing_price s st.stats st.priceHistory l raw now t ht, hnp]
    dsimp only
    rw [if_pos hcond]
  · show st.priceHistory ++
      (updateListing s st.stats st.priceHistory l raw now).newPrice.toList = _
    rw [hrow]
    rfl

/-- A stored listing with a non-null title but no stored price. -/
def noPriceListing : Listing :=
  { id := 9, property_hash := "C9H", title := some "T", price := none }

/-- A raw update carrying only a price. -/
def priceOnlyRaw : RawListing := { price := some 100 }

/-- Witness for C9: the null-price update errors at classification while the
mutated price and the appended history row persist. -/
theorem C9_null_price_type_error_witness :
    (updateListing sampleSettings [] [] noPriceListing priceOnlyRaw 6).outcome =
      .error "TypeError: < not supported between float and NoneType" ∧
    (updateListing sampleSettings [] [] noPriceListing priceOnlyRaw
       6).listing.price = some 100 ∧
    (update_existing_listing sampleSettings { listings := [noPriceListing] }
       noPriceListing priceOnlyRaw 6).1.priceHistory =
      [{ listing_id := 9, price := 100, price_per_sqm := none,
         timestamp := 6 }] :=
  ⟨(C9_null_price_type_error sampleSettings { listings := [noPriceListing] }
      noPriceListing priceOnlyRaw 6 "T" 100 rfl rfl rfl (by norm_num)).1,
   (C9_null_price_type_error sampleSettings { listings := [noPriceListing] }
      noPriceListing priceOnlyRaw 6 "T" 100 rfl rfl rfl (by norm_num)).2.1,
   (C9_null_price_type_error sampleSettings { listings := [noPriceListing] }
      noPriceListing priceOnlyRaw 6 "T" 100 rfl rfl rfl (by norm_num)).2.2.2.2.2.1⟩

/-- A stored listing with neither title nor price. -/
def noPriceNoTitleListing : Listing :=
  { id := 10, property_hash := "C9N", title := none, price := none }

/-- Counterexample for C9 as frozen: when the stored listing's title is also
NULL, the entry log line raises a different `TypeError` first — the
price-change branch never runs, nothing is mutated and no history row is
appended, contradicting the claim's conclusions for such listings. -/
theorem C9_counterexample_null_title :
    noPriceNoTitleListing.price = none ∧ priceOnlyRaw.price = some 100 ∧
    updateListing sampleSettings [] [] noPriceNoTitleListing priceOnlyRaw 6 =
      { listing := noPriceNoTitleListing, newPrice := none, newDesc := none,
        outcome := .error "TypeError: NoneType object is not subscriptable" } :=
  ⟨rfl, rfl, rfl⟩

/-! ## Claim C8: the batch loop never raises and counts correctly -/

/-- The total of all outcome counters. -/
def sumStats (stats : List (String × Nat)) : Nat := (stats.map Prod.snd).sum

theorem bumpStat_keys (stats : List (String × Nat)) (k : String) :
    (bumpStat stats k).map Prod.fst = stats.map Prod.fst := by
  induction stats with
  | nil => rfl
  | cons p rest ih =>
    unfold bumpStat at ih ⊢
    by_cases h : p.1 = k
    · simp [h, ih]
    · simp [h, ih]

theorem bumpStat_of_not_mem (stats : List (String × Nat)) (k : String)
    (h : k ∉ stats.map Prod.fst) : bumpStat stats k = stats := by
  induction stats with
  | nil => rfl
  | cons p rest ih =>
    simp only [List.map_cons, List.mem_cons] at h
    push_neg at h
    unfold bumpStat at ih ⊢
    simp only [List.map_cons]
    rw [if_neg (fun hp => h.1 hp.symm)]
    rw [ih h.2]

theorem sumStats_bumpStat (stats : List (String × Nat)) (k : String)
    (h : (stats.map Prod.fst).Nodup) :
    sumStats (bumpStat stats k) ≤ sumStats stats + 1 := by
  induction stats with
  | nil => simp [sumStats, bumpStat]
  | cons p rest ih =>
    simp only [List.map_cons, List.nodup_cons] at h
    by_cases hk : p.1 = k
    · have hnot : k ∉ rest.map Prod.fst := by
        rw [← hk]
        exact h.1
      unfold bumpStat
      simp only [List.map_cons]
      rw [if_pos hk]
      have : bumpStat rest k = rest := bumpStat_of_not_mem rest k hnot
      unfold bumpStat at this
      rw [this]
      simp [sumStats]
      omega
    · unfold bumpStat
      simp only [List.map_cons]
      rw [if_neg hk]
      have := ih h.2
      unfold bumpStat at this
      simp only [sumStats, List.map_cons, List.sum_cons] at this ⊢
      omega

theorem processBatch_cons (s : Settings) (ratio : String → String → Nat)
    (threshold : Nat) (source : String) (now : Nat) (st : DBState)
    (raw : RawListing) (rest : List RawListing)
    (stats : List (String × Nat)) :
    processBatch s ratio threshold source now st (raw :: rest) stats =
      (match process_single_listing s ratio threshold st raw source now with
       | (st1, .ok tag) =>
         processBatch s ratio threshold source now st1 rest (bumpStat stats tag)
       | (st1, .error _) =>
         processBatch s ratio threshold source now st1 rest stats) := rfl

theorem processBatch_keys (s : Settings) (ratio : String → String → Nat)
    (threshold : Nat) (source : String) (now : Nat) (raws : List RawListing) :
    ∀ st stats, ((processBatch s ratio threshold source now st raws
        stats).2).map Prod.fst = stats.map Prod.fst := by
  induction raws with
  | nil => intro st stats; rfl
  | cons raw rest ih =>
    intro st stats
    unfold processBatch
    rcases h : process_single_listing s ratio threshold st raw source now
      with ⟨st1, r⟩
    cases r with
    | ok tag =>
      rw [ih st1 (bumpStat stats tag), bumpStat_keys]
    | error e =>
      rw [ih st1 stats]

theorem processBatch_sum (s : Settings) (ratio : String → String → Nat)
    (threshold : Nat) (source : String) (now : Nat) (raws : List RawListing) :
    ∀ st stats, (stats.map Prod.fst).Nodup →
      sumStats ((processBatch s ratio threshold source now st raws stats).2) ≤
        sumStats stats + raws.length := by
  induction raws with
  | nil => intro st stats _; simp [processBatch]
  | cons raw rest ih =>
    intro st stats hnd
    unfold processBatch
    rcases h : process_single_listing s ratio threshold st raw source now
      with ⟨st1, r⟩
    cases r with
    | ok tag =>
      have h1 := ih st1 (bumpStat stats tag)
        (by rw [bumpStat_keys]; exact hnd)
      have h2 := sumStats_bumpStat stats tag hnd
      simp only [List.length_cons]
      omega
    | error e =>
      have h1 := ih st1 stats hnd
      simp only [List.length_cons]
      omega

/-- C8: `process_listings` is total over per-listing failures: the returned
stats dictionary always carries exactly the five outcome keys, the counters
sum to at most the number of input listings, and a listing whose processing
raises is skipped — it bumps no counter, its (possibly partial) mutations
stay in the session state, and the rest of the batch continues from there. -/
theorem C8_batch_never_raises (s : Settings) (ratio : String → String → Nat)
    (threshold : Nat) (st : DBState) (raws : List RawListing)
    (source : String) (now : Nat) :
    ((process_listings s ratio threshold st raws source now).2).map Prod.fst =
      ["new", "updated", "duplicates", "filtered", "price_drops"] ∧
    sumStats ((process_listings s ratio threshold st raws source now).2) ≤
      raws.length ∧
    (∀ raw rest e,
       (process_single_listing s ratio threshold st raw source now).2 =
         .error e →
       process_listings s ratio threshold st (raw :: rest) source now =
         process_listings s ratio threshold
           (process_single_listing s ratio threshold st raw source now).1
           rest source now) := by
  refine ⟨?_, ?_, ?_⟩
  · exact processBatch_keys s ratio threshold source now raws st initialStats
  · have h := processBatch_sum s ratio threshold source now raws st
      initialStats (by decide)
    have h0 : sumStats initialStats = 0 := by decide
    unfold process_listings
    omega
  · intro raw rest e herr
    rcases h : process_single_listing s ratio threshold st raw source now
      with ⟨st1, r⟩
    rw [h] at herr
    simp only at herr
    subst herr
    unfold process_listings
    rw [processBatch_cons, h]

/-- A stored listing whose NULL title makes any update on it raise. -/
def batchListing : Listing :=
  { id := 1, property_hash := generate_property_hash "x" 3 80, title := none,
    price := none }

/-- The session state holding `batchListing`. -/
def batchState : DBState := { listings := [batchListing] }

/-- A raw listing that passes all filters and deduplicates onto
`batchListing` by property hash, so its processing raises. -/
def batchRaw : RawListing :=
  { address := some "x", rooms := some 3, size_sqm := some 80,
    title := some "T" }

/-- Witness for C8: a one-listing batch whose single listing raises still
returns the five-key stats dictionary, counts at most one outcome, and
continues from the mutated state with the failed listing counted nowhere. -/
theorem C8_batch_never_raises_witness :
    ((process_listings sampleSettings ratioZero 85 batchState [batchRaw]
        "yad2" 5).2).map Prod.fst =
      ["new", "updated", "duplicates", "filtered", "price_drops"] ∧
    sumStats ((process_listings sampleSettings ratioZero 85 batchState
        [batchRaw] "yad2" 5).2) ≤ 1 ∧
    process_listings sampleSettings ratioZero 85 batchState [batchRaw]
        "yad2" 5 =
      process_listings sampleSettings ratioZero 85
        (process_single_listing sampleSettings ratioZero 85 batchState
          batchRaw "yad2" 5).1 [] "yad2" 5 :=
  ⟨(C8_batch_never_raises sampleSettings ratioZero 85 batchState [batchRaw]
      "yad2" 5).1,
   (C8_batch_never_raises sampleSettings ratioZero 85 batchState [batchRaw]
      "yad2" 5).2.1,
   (C8_batch_never_raises sampleSettings ratioZero 85 batchState [batchRaw]
      "yad2" 5).2.2 batchRaw []
     "TypeError: NoneType object is not subscriptable" (by decide)⟩

/-! ## Helper lemmas for the create path and the re-scrape scenario -/

theorem createNL_listings (s : Settings) (st : DBState) (raw : RawListing)
    (property_hash : String) (now : Nat) :
    (create_new_listing s st raw property_hash now).1.listings =
      st.listings ++ [newListingRecord s st raw property_hash now] := by
  unfold create_new_listing
  dsimp only
  repeat' split
  all_goals rfl

theorem createNL_stats (s : Settings) (st : DBState) (raw : RawListing)
    (property_hash : String) (now : Nat) :
    (create_new_listing s st raw property_hash now).1.stats = st.stats := by
  unfold create_new_listing
  dsimp only
  repeat' split
  all_goals rfl

theorem createNL_priceHistory (s : Settings) (st : DBState) (raw : RawListing)
    (property_hash : String) (now : Nat) (p : ℚ)
    (hp : raw.price = some p) (hp0 : p ≠ 0) :
    (create_new_listing s st raw property_hash now).1.priceHistory =
      st.priceHistory ++
        [{ listing_id := st.nextId, price := p,
           price_per_sqm := raw.price_per_sqm, timestamp := now }] := by
  unfold create_new_listing
  dsimp only
  rw [show (newListingRecord s st raw property_hash now).price = raw.price
      from rfl, hp]
  dsimp only
  rw [if_pos hp0]
  repeat' split
  all_goals rfl

theorem createNL_outcome (s : Settings) (st : DBState) (raw : RawListing)
    (property_hash : String) (now : Nat) (t : String)
    (ht : raw.title = some t) :
    (create_new_listing s st raw property_hash now).2 = .ok "new" := by
  unfold create_new_listing
  dsimp only
  rw [show (newListingRecord s st raw property_hash now).title = raw.title
      from rfl, ht]

theorem find?_append_none {α : Type} (p : α → Bool) (l₁ l₂ : List α)
    (h : l₁.find? p = none) : (l₁ ++ l₂).find? p = l₂.find? p := by
  induction l₁ with
  | nil => rfl
  | cons a rest ih =>
    rw [List.find?_cons] at h
    rcases hp : p a with _ | _
    · rw [List.cons_append, List.find?_cons, hp]
      rw [hp] at h
      exact ih h
    · rw [hp] at h
      exact absurd h (by simp)

theorem map_id_of_ne {α : Type} (f : α → α) (l : List α)
    (h : ∀ x ∈ l, f x = x) : l.map f = l := by
  induction l with
  | nil => rfl
  | cons a rest ih =>
    rw [List.map_cons, h a (List.mem_cons_self a rest),
        ih (fun x hx => h x (List.mem_cons_of_mem a hx))]

theorem filter_nil_of_ne {α : Type} (p : α → Bool) (l : List α)
    (h : ∀ x ∈ l, p x = false) : l.filter p = [] := by
  induction l with
  | nil => rfl
  | cons a rest ih =>
    rw [List.filter_cons, h a (List.mem_cons_self a rest)]
    exact ih (fun x hx => h x (List.mem_cons_of_mem a hx))

theorem find_duplicate_hash_none (ratio : String → String → Nat)
    (threshold : Nat) (listings : List Listing)
    (property_hash source : String) (external_id phone : Option String)
    (address : String)
    (h : find_duplicate ratio threshold listings property_hash source
           external_id phone address = (none, "")) :
    find_by_property_hash listings property_hash = none := by
  rcases hf : find_by_property_hash listings property_hash with _ | l
  · rfl
  · unfold find_duplicate at h
    rw [hf] at h
    simp at h

/-! ## Claim C4: idempotent re-scrape -/

/-- C4 (amended): for every raw listing that passes all filters and carries a
truthy price AND a title (a `None` title makes the create path raise in its
success log line after persisting), starting from a store with no duplicate
of it and fresh ids: the first `process_single_listing` call returns "new",
an immediately repeated call with the identical raw listing returns
"duplicates", the re-scraped listing keeps status "unseen", `first_seen`
equal to the creation time, its price and description, no description
history is added by the second call, and exactly one `PriceHistory` row
exists for the listing after both calls. -/
theorem C4_idempotent_rescrape (s : Settings) (ratio : String → String → Nat)
    (threshold : Nat) (st : DBState) (raw : RawListing) (source : String)
    (now₁ now₂ : Nat) (t : String) (p : ℚ)
    (hpass : (passes_all_filters s raw).1 = true)
    (hprice : raw.price = some p) (hp0 : p ≠ 0)
    (htitle : raw.title = some t)
    (hnodup : find_duplicate ratio threshold st.listings
        (generate_property_hash (raw.address.getD "") (raw.rooms.getD 0)
          (raw.size_sqm.getD 0)) source raw.external_id
        (if truthyS raw.contact_phone then
           normalize_israeli_phone raw.contact_phone
         else none) (raw.address.getD "") = (none, ""))
    (hfreshL : ∀ x ∈ st.listings, x.id ≠ st.nextId)
    (hfreshH : ∀ r ∈ st.priceHistory, r.listing_id ≠ st.nextId) :
    (process_single_listing s ratio threshold st raw source now₁).2 =
      .ok "new" ∧
    (process_single_listing s ratio threshold
       (process_single_listing s ratio threshold st raw source now₁).1
       raw source now₂).2 = .ok "duplicates" ∧
    (process_single_listing s ratio threshold
       (process_single_listing s ratio threshold st raw source now₁).1
       raw source now₂).1.listings =
      st.listings ++
        [(updateListing s
            (process_single_listing s ratio threshold st raw source now₁).1.stats
            (process_single_listing s ratio threshold st raw source now₁).1.priceHistory
            (newListingRecord s st raw
              (generate_property_hash (raw.address.getD "") (raw.rooms.getD 0)
                (raw.size_sqm.getD 0)) now₁) raw now₂).listing] ∧
    (updateListing s
        (process_single_listing s ratio threshold st raw source now₁).1.stats
        (process_single_listing s ratio threshold st raw source now₁).1.priceHistory
        (newListingRecord s st raw
          (generate_property_hash (raw.address.getD "") (raw.rooms.getD 0)
            (raw.size_sqm.getD 0)) now₁) raw now₂).listing.status = "unseen" ∧
    (updateListing s
        (process_single_listing s ratio threshold st raw source now₁).1.stats
        (process_single_listing s ratio threshold st raw source now₁).1.priceHistory
        (newListingRecord s st raw
          (generate_property_hash (raw.address.getD "") (raw.rooms.getD 0)
            (raw.size_sqm.getD 0)) now₁) raw now₂).listing.first_seen =
      some now₁ ∧
    (updateListing s
        (process_single_listing s ratio threshold st raw source now₁).1.stats
        (process_single_listing s ratio threshold st raw source now₁).1.priceHistory
        (newListingRecord s st raw
          (generate_property_hash (raw.address.getD "") (raw.rooms.getD 0)
            (raw.size_sqm.getD 0)) now₁) raw now₂).listing.price = some p ∧
    (updateListing s
        (process_single_listing s ratio threshold st raw source now₁).1.stats
        (process_single_listing s ratio threshold st raw source now₁).1.priceHistory
        (newListingRecord s st raw
          (generate_property_hash (raw.address.getD "") (raw.rooms.getD 0)
            (raw.size_sqm.getD 0)) now₁) raw now₂).listing.description =
      raw.description ∧
    (process_single_listing s ratio threshold
       (process_single_listing s ratio threshold st raw source now₁).1
       raw source now₂).1.descHistory =
      (process_single_listing s ratio threshold st raw source now₁).1.descHistory ∧
    histFor (process_single_listing s ratio threshold
       (process_single_listing s ratio threshold st raw source now₁).1
       raw source now₂).1 st.nextId =
      [{ listing_id := st.nextId, price := p,
         price_per_sqm := raw.price_per_sqm, timestamp := now₁ }] := by
  set H := generate_property_hash (raw.address.getD "") (raw.rooms.getD 0)
    (raw.size_sqm.getD 0) with hHdef
  set L := newListingRecord s st raw H now₁ with hLdef
  -- the first call takes the create path
  have h1 : process_single_listing s ratio threshold st raw source now₁ =
      create_new_listing s st raw H now₁ := by
    unfold process_single_listing
    rw [if_neg (by simp [hpass])]
    dsimp only
    rw [hnodup]
  have hfst2 : (process_single_listing s ratio threshold st raw source
      now₁).2 = .ok "new" := by
    rw [h1]
    exact createNL_outcome s st raw H now₁ t htitle
  have hlist1 : (process_single_listing s ratio threshold st raw source
      now₁).1.listings = st.listings ++ [L] := by
    rw [h1, hLdef]
    exact createNL_listings s st raw H now₁
  have hph1 : (process_single_listing s ratio threshold st raw source
      now₁).1.priceHistory = st.priceHistory ++
        [{ listing_id := st.nextId, price := p,
           price_per_sqm := raw.price_per_sqm, timestamp := now₁ }] := by
    rw [h1]
    exact createNL_priceHistory s st raw H now₁ p hprice hp0
  -- facts about the created listing
  have htL : L.title = some t := by
    rw [show L.title = raw.title from rfl, htitle]
  have hLprice : L.price = some p := by
    rw [show L.price = raw.price from rfl, hprice]
  have hLid : L.id = st.nextId := rfl
  -- the second call finds the created listing by property hash
  have hfind : find_by_property_hash (process_single_listing s ratio
      threshold st raw source now₁).1.listings H = some L := by
    rw [hlist1]
    have hnone : find_by_property_hash st.listings H = none :=
      find_duplicate_hash_none ratio threshold st.listings H source
        raw.external_id _ (raw.address.getD "") hnodup
    unfold find_by_property_hash at hnone ⊢
    rw [find?_append_none _ _ _ hnone]
    have hbeq : (L.property_hash == H) = true := by
      simp [show L.property_hash = H from rfl]
    rw [List.find?_cons, hbeq]
  have h2 : ∀ st1 : DBState, find_by_property_hash st1.listings H = some L →
      process_single_listing s ratio threshold st1 raw source now₂ =
        update_existing_listing s st1 L raw now₂ := by
    intro st1 hf1
    unfold process_single_listing
    rw [if_neg (by simp [hpass])]
    dsimp only
    rw [← hHdef]
    have hdup2 : find_duplicate ratio threshold st1.listings H source
        raw.external_id
        (if truthyS raw.contact_phone then
           normalize_israeli_phone raw.contact_phone
         else none) (raw.address.getD "") = (some L, "property_hash") := by
      unfold find_duplicate
      rw [hf1]
    rw [hdup2]
  -- the price branch is skipped: the new price equals the stored price
  have hcond : ¬(p ≠ 0 ∧ L.price ≠ some p) := by
    rw [hLprice]
    simp
  have hout : (updateListing s
      (process_single_listing s ratio threshold st raw source now₁).1.stats
      (process_single_listing s ratio threshold st raw source now₁).1.priceHistory
      L raw now₂).outcome = .ok "duplicates" := by
    rw [updateListing_outcome _ _ _ _ _ _ t htL, hprice]
    dsimp only
    rw [if_neg hcond]
    rcases hd : raw.description with _ | nd
    · rfl
    · dsimp only
      rw [if_neg (by rw [show L.description = raw.description from rfl, hd]; simp)]
  have hnewPrice : (updateListing s
      (process_single_listing s ratio threshold st raw source now₁).1.stats
      (process_single_listing s ratio threshold st raw source now₁).1.priceHistory
      L raw now₂).newPrice = none := by
    rw [updateListing_newPrice _ _ _ _ _ _ t htL, hprice]
    dsimp only
    rw [if_neg hcond]
  have hnewDesc : (updateListing s
      (process_single_listing s ratio threshold st raw source now₁).1.stats
      (process_single_listing s ratio threshold st raw source now₁).1.priceHistory
      L raw now₂).newDesc = none := by
    rw [updateListing_newDesc _ _ _ _ _ _ t htL]
    rcases hd : raw.description with _ | nd
    · rfl
    · dsimp only
      rw [if_neg (by rw [show L.description = raw.description from rfl, hd]; simp)]
  refine ⟨hfst2, ?_, ?_, ?_, ?_, ?_, ?_, ?_, ?_⟩
  · rw [h2 _ hfind]
    exact hout
  · rw [h2 _ hfind]
    show ((process_single_listing s ratio threshold st raw source
        now₁).1.listings).map _ = _
    rw [hlist1, List.map_append]
    congr 1
    · apply map_id_of_ne
      intro x hx
      have hne : (x.id == L.id) = false := by
        rw [hLid]
        simpa using hfreshL x hx
      rw [hne]
      simp
    · simp
  · rw [updateListing_status _ _ _ _ _ _ t htL, hprice]
    dsimp only
    rw [if_neg hcond]
    rfl
  · exact (updateListing_seen _ _ _ _ _ _ t htL).2.2
  · rw [updateListing_price _ _ _ _ _ _ t htL, hprice]
    dsimp only
    rw [if_neg hcond, hLprice]
  · rw [updateListing_description _ _ _ _ _ _ t htL]
    rcases hd : raw.description with _ | nd
    · dsimp only
      rw [show L.description = raw.description from rfl, hd]
    · dsimp only
      rw [if_neg (by rw [show L.description = raw.description from rfl, hd]; simp),
          show L.description = raw.description from rfl, hd]
  · rw [h2 _ hfind]
    show (process_single_listing s ratio threshold st raw source
        now₁).1.descHistory ++ _ = _
    rw [hnewDesc]
    simp
  · rw [h2 _ hfind]
    unfold histFor
    show ((process_single_listing s ratio threshold st raw source
        now₁).1.priceHistory ++ _).filter _ = _
    rw [hnewPrice, hph1]
    simp only [Option.toList, List.append_nil, List.filter_append]
    rw [filter_nil_of_ne _ _ (fun r hr => by simp [hfreshH r hr])]
    simp

/-- Witness for C4: re-scraping `sampleRaw` into an empty store yields "new"
then "duplicates" with exactly one price-history row. -/
theorem C4_idempotent_rescrape_witness :
    (process_single_listing sampleSettings ratioZero 85 {} sampleRaw "yad2"
       10).2 = .ok "new" ∧
    (process_single_listing sampleSettings ratioZero 85
       (process_single_listing sampleSettings ratioZero 85 {} sampleRaw
         "yad2" 10).1 sampleRaw "yad2" 11).2 = .ok "duplicates" ∧
    histFor (process_single_listing sampleSettings ratioZero 85
       (process_single_listing sampleSettings ratioZero 85 {} sampleRaw
         "yad2" 10).1 sampleRaw "yad2" 11).1 1 =
      [{ listing_id := 1, price := 2000000, price_per_sqm := none,
         timestamp := 10 }] :=
  ⟨(C4_idempotent_rescrape sampleSettings ratioZero 85 {} sampleRaw "yad2"
      10 11 "Nice flat" 2000000 (by decide) rfl (by decide) rfl (by decide)
      (by decide) (by decide)).1,
   (C4_idempotent_rescrape sampleSettings ratioZero 85 {} sampleRaw "yad2"
      10 11 "Nice flat" 2000000 (by decide) rfl (by decide) rfl (by decide)
      (by decide) (by decide)).2.1,
   (C4_idempotent_rescrape sampleSettings ratioZero 85 {} sampleRaw "yad2"
      10 11 "Nice flat" 2000000 (by decide) rfl (by decide) rfl (by decide)
      (by decide) (by decide)).2.2.2.2.2.2.2.2⟩

/-- `sampleRaw` without a title. -/
def rawNoTitle : RawListing := { sampleRaw with title := none }

/-- Counterexample for C4 as frozen: the same raw listing without a title
passes all filters and carries a price, yet its first processing returns a
`TypeError` (raised by `listing.title[:50]` in the creation log line), not
"new". -/
theorem C4_counterexample_null_title :
    (passes_all_filters sampleSettings rawNoTitle).1 = true ∧
    rawNoTitle.price = some 2000000 ∧
    (process_single_listing sampleSettings ratioZero 85 {} rawNoTitle "yad2"
       10).2 = .error "TypeError: NoneType object is not subscriptable" ∧
    (process_single_listing sampleSettings ratioZero 85 {} rawNoTitle "yad2"
       10).2 ≠ .ok "new" :=
  ⟨by decide, rfl, by decide, by decide⟩
